import Mathlib

set_option maxHeartbeats 1000000
set_option linter.unusedVariables false

/-!
Verification development for
`packages/amplication-data-service-generator/src/server/resource/service/create-service.ts`.

The file embeds the service-module synthesis pipeline: the TypeScript
expression fragments built for the create/update argument mappings, the
per-entity substitution mapping, and the two artifact pipelines
(`createServiceModule` and `createServiceBaseModule`) as explicit step
sequences folded over a syntax-tree state.  Utility functions imported from
`util/ast`, `util/module`, `util/field` and `server/constants` are not part
of the sources; those are modelled from the specification and are marked as
such in their doc comments.
-/

/-- A fragment of the TypeScript expression AST (the `ast-types` node shapes
used by `create-service.ts`): identifiers, member access, `await`,
short-circuit conjunction, calls of one or two arguments, one-parameter arrow
functions, and object expressions whose parts are either a spread (key
`none`) or a keyed property (key `some k`). -/
inductive Expression where
  | ident (name : String)
  | member (obj : Expression) (prop : String)
  | awaitE (e : Expression)
  | logicalAnd (l r : Expression)
  | call1 (callee arg : Expression)
  | call2 (callee arg1 arg2 : Expression)
  | arrow (param : String) (body : Expression)
  | objectE (props : List (Option String × Expression))

/-- Association-list lookup used for the substitution mapping. -/
def lookupExpr (m : List (String × Expression)) (n : String) : Option Expression :=
  match m with
  | [] => none
  | (k, v) :: rest => if k = n then some v else lookupExpr rest n

mutual
/-- Modelled from the spec: replacement step of the template interpolator
(`interpolate` in `util/ast`, not in the sources): every identifier node whose
name is a key of the mapping is replaced by the mapped node; all other nodes
are rebuilt unchanged. -/
def substExpr (m : List (String × Expression)) : Expression → Expression
  | .ident n =>
    match lookupExpr m n with
    | some e => e
    | none => .ident n
  | .member o p => .member (substExpr m o) p
  | .awaitE e => .awaitE (substExpr m e)
  | .logicalAnd l r => .logicalAnd (substExpr m l) (substExpr m r)
  | .call1 c a => .call1 (substExpr m c) (substExpr m a)
  | .call2 c a b => .call2 (substExpr m c) (substExpr m a) (substExpr m b)
  | .arrow p b => .arrow p (substExpr m b)
  | .objectE props => .objectE (substProps m props)
/-- Interpolation of the parts of an object expression. -/
def substProps (m : List (String × Expression)) :
    List (Option String × Expression) → List (Option String × Expression)
  | [] => []
  | (k, v) :: rest => (k, substExpr m v) :: substProps m rest
end

/-- Modelled from the spec: the entity-field metadata (`EntityField` in
`types.ts`, not in the sources) as far as the synthesis engine reads it: a
name plus the capability tag marking sensitive (password) fields. -/
structure EntityField where
  name : String
  isSensitive : Bool
deriving DecidableEq

/-- Modelled from the spec: the entity metadata (`Entity` in `types.ts`, not
in the sources) as far as the synthesis engine reads it: an ordered sequence
of fields. -/
structure Entity where
  fields : List EntityField

/-- Modelled from the spec: `isPasswordField` from `util/field` (not in the
sources) tests the sensitive/secret capability tag of a field. -/
def isPasswordField (f : EntityField) : Bool :=
  f.isSensitive

/-- Modelled from the spec: `SRC_DIRECTORY` from `server/constants` (not in
the sources); a fixed root for generated files.  The claims about paths are
proved independently of this concrete value. -/
def SRC_DIRECTORY : String :=
  "src"

/-- `const ARGS_ID = builders.identifier("args")`. -/
def ARGS_ID : Expression :=
  .ident "args"

/-- Name of `const DATA_ID = builders.identifier("data")`. -/
def DATA_ID : String :=
  "data"

/-- Name of `const PASSWORD_SERVICE_ID = builders.identifier("PasswordService")`. -/
def PASSWORD_SERVICE_ID : String :=
  "PasswordService"

/-- Name of `const PASSWORD_SERVICE_MEMBER_ID = builders.identifier("passwordService")`. -/
def PASSWORD_SERVICE_MEMBER_ID : String :=
  "passwordService"

/-- `const PASSWORD_SERVICE_MODULE_PATH = SRC_DIRECTORY + "/auth/password.service.ts"`. -/
def PASSWORD_SERVICE_MODULE_PATH : String :=
  SRC_DIRECTORY ++ "/auth/password.service.ts"

/-- `const HASH_MEMBER_EXPRESSION = memberExpression this.passwordService.hash`. -/
def HASH_MEMBER_EXPRESSION : Expression :=
  .member (.member (.ident "this") PASSWORD_SERVICE_MEMBER_ID) "hash"

/-- Name of `const TRANSFORM_STRING_FIELD_UPDATE_INPUT_ID`. -/
def TRANSFORM_STRING_FIELD_UPDATE_INPUT_ID : String :=
  "transformStringFieldUpdateInput"

/-- `const PRISMA_UTIL_MODULE_PATH = SRC_DIRECTORY + "/prisma.util.ts"`. -/
def PRISMA_UTIL_MODULE_PATH : String :=
  SRC_DIRECTORY ++ "/prisma.util.ts"

/-- `const PASSWORD_FIELD_ASYNC_METHODS = new Set(["create", "update"])`. -/
def PASSWORD_FIELD_ASYNC_METHODS : List String :=
  ["create", "update"]

/-- `createServiceId` (source line 240). -/
def createServiceId (entityType : String) : String :=
  entityType ++ "Service"

/-- `createServiceBaseId` (source line 244). -/
def createServiceBaseId (entityType : String) : String :=
  entityType ++ "ServiceBase"

/-- `createMutationDataMapping` (source lines 222-238): an empty override
list yields the bare `args` identifier; otherwise an object expression that
spreads `args` and whose `data` property spreads `args.data` before listing
the overrides. -/
def createMutationDataMapping (mappings : List (String × Expression)) : Expression :=
  if mappings.isEmpty then
    ARGS_ID
  else
    .objectE
      [(none, ARGS_ID),
       (some DATA_ID,
        .objectE ((none, .member ARGS_ID DATA_ID) ::
          mappings.map fun p => (some p.1, p.2)))]

/-- The override expression built per password field for `CREATE_ARGS_MAPPING`
(source lines 59-64): `await this.passwordService.hash(args.data.field)`. -/
def createArgsFieldValue (fieldName : String) : Expression :=
  .awaitE (.call1 HASH_MEMBER_EXPRESSION (.member (.member ARGS_ID DATA_ID) fieldName))

/-- The override expression built per password field for `UPDATE_ARGS_MAPPING`
(source lines 68-77): `args.data.field && await
transformStringFieldUpdateInput(args.data.field, (password) =>
this.passwordService.hash(password))`. -/
def updateArgsFieldValue (fieldName : String) : Expression :=
  .logicalAnd (.member (.member ARGS_ID DATA_ID) fieldName)
    (.awaitE (.call2 (.ident TRANSFORM_STRING_FIELD_UPDATE_INPUT_ID)
      (.member (.member ARGS_ID DATA_ID) fieldName)
      (.arrow "password" (.call1 HASH_MEMBER_EXPRESSION (.ident "password")))))

/-- The substitution mapping built by `createServiceModules` (source lines
48-80), keyed by placeholder name. -/
def serviceMapping (entityName entityType : String)
    (passwordFields : List EntityField) : List (String × Expression) :=
  [("SERVICE", .ident (createServiceId entityType)),
   ("SERVICE_BASE", .ident (createServiceBaseId entityType)),
   ("ENTITY", .ident entityType),
   ("FIND_MANY_ARGS", .ident ("FindMany" ++ entityType ++ "Args")),
   ("FIND_ONE_ARGS", .ident ("FindOne" ++ entityType ++ "Args")),
   ("CREATE_ARGS", .ident (entityType ++ "CreateArgs")),
   ("UPDATE_ARGS", .ident (entityType ++ "UpdateArgs")),
   ("DELETE_ARGS", .ident (entityType ++ "DeleteArgs")),
   ("DELEGATE", .ident entityName),
   ("CREATE_ARGS_MAPPING",
    createMutationDataMapping
      (passwordFields.map fun field => (field.name, createArgsFieldValue field.name))),
   ("UPDATE_ARGS_MAPPING",
    createMutationDataMapping
      (passwordFields.map fun field => (field.name, updateArgsFieldValue field.name)))]

/-- A member of a class body: a method (with the flag telling whether its key
node is a plain identifier, mirroring the `Identifier.check(member.key)` test
of source lines 137 and 189), a plain property, or the constructor-assigned
collaborator member added by dependency injection. -/
inductive ClassMember where
  | method (keyIsIdentifier : Bool) (name : String) (isAsync : Bool) (body : List Expression)
  | property (name : String)
  | injectedDep (memberName : String) (typeName : String) (visibility : String)

/-- A class declaration: its identifier, optional superclass, the argument
identifiers of the constructor's `super(...)` call when one exists, and the
ordered member list. -/
structure ClassDecl where
  id : String
  superClass : Option String
  superCallArgs : Option (List String)
  members : List ClassMember

/-- An import declaration: imported symbol names and the module path. -/
structure ImportDecl where
  names : List String
  path : String

/-- The syntax-tree state of one template file as far as the pipeline
observes it: imports, class declarations, and the scaffold-only constructs
the stripper removes (`declare class` names, `@ts-ignore` comment count,
eslint comment count, `declare`d variable and interface names). -/
structure File where
  imports : List ImportDecl
  classes : List ClassDecl
  classDeclares : List String
  ignoreComments : Nat
  eslintComments : Nat
  variableDeclares : List String
  interfaceDeclares : List String

/-- Substitution of a name-position identifier: replaced only when the
mapping sends it to an identifier node. -/
def substName (m : List (String × Expression)) (n : String) : String :=
  match lookupExpr m n with
  | some (.ident k) => k
  | _ => n

/-- Interpolation of one class member. -/
def substMember (m : List (String × Expression)) : ClassMember → ClassMember
  | .method keyIsIdentifier n isAsync body =>
    .method keyIsIdentifier (substName m n) isAsync (body.map (substExpr m))
  | .property n => .property (substName m n)
  | .injectedDep a b c => .injectedDep a b c

/-- Interpolation of one class declaration. -/
def substClass (m : List (String × Expression)) (c : ClassDecl) : ClassDecl :=
  { id := substName m c.id
    superClass := c.superClass.map (substName m)
    superCallArgs := c.superCallArgs.map fun l => l.map (substName m)
    members := c.members.map (substMember m) }

/-- Modelled from the spec: `interpolate` from `util/ast` (not in the
sources) replaces every placeholder identifier of the tree by its mapped
node, leaving everything else untouched. -/
def interpolate (f : File) (m : List (String × Expression)) : File :=
  { f with
    classes := f.classes.map (substClass m)
    classDeclares := f.classDeclares.map (substName m)
    variableDeclares := f.variableDeclares.map (substName m)
    interfaceDeclares := f.interfaceDeclares.map (substName m) }

/-- Modelled from the spec: `removeTSClassDeclares` from `util/ast` (not in
the sources) drops every template-only `declare class`. -/
def removeTSClassDeclares (f : File) : File :=
  { f with classDeclares := [] }

/-- Modelled from the spec: `removeTSIgnoreComments` from `util/ast` (not in
the sources). -/
def removeTSIgnoreComments (f : File) : File :=
  { f with ignoreComments := 0 }

/-- Modelled from the spec: `removeESLintComments` from `util/ast` (not in
the sources). -/
def removeESLintComments (f : File) : File :=
  { f with eslintComments := 0 }

/-- Modelled from the spec: `removeTSVariableDeclares` from `util/ast` (not
in the sources). -/
def removeTSVariableDeclares (f : File) : File :=
  { f with variableDeclares := [] }

/-- Modelled from the spec: `removeTSInterfaceDeclares` from `util/ast` (not
in the sources). -/
def removeTSInterfaceDeclares (f : File) : File :=
  { f with interfaceDeclares := [] }

/-- All symbol names already imported by the file. -/
def importedNames (f : File) : List String :=
  f.imports.flatMap fun i => i.names

/-- Modelled from the spec: `addImports` from `util/ast` (not in the
sources) appends import declarations, de-duplicating by imported symbol. -/
def addImports (f : File) : List ImportDecl → File
  | [] => f
  | i :: rest =>
    let fresh := i.names.filter fun n => !(importedNames f).contains n
    addImports
      (if fresh.isEmpty then f
       else { f with imports := f.imports ++ [{ names := fresh, path := i.path }] })
      rest

/-- `getClassDeclarationById` lookup (modelled from the spec: the `util/ast`
helper, not in the sources, locates the class declaration with the given
identifier). -/
def findClass (f : File) (id : String) : Option ClassDecl :=
  f.classes.find? fun c => c.id = id

/-- Modelled from the spec: `addInjectableDependency` from
`util/nestjs-code-generation` (not in the sources) appends a new
constructor-assigned member of the collaborator's type to the class. -/
def addInjectableDependency (c : ClassDecl) (memberName typeName visibility : String) :
    ClassDecl :=
  { c with members := c.members ++ [.injectedDep memberName typeName visibility] }

/-- Modelled from the spec: `addIdentifierToConstructorSuperCall` from
`util/ast` (not in the sources) appends the identifier to the argument list
of every existing constructor `super(...)` call of the file, preserving the
existing arguments' order. -/
def addIdentifierToConstructorSuperCall (f : File) (id : String) : File :=
  { f with
    classes := f.classes.map fun c =>
      { c with superCallArgs := c.superCallArgs.map fun args => args ++ [id] } }

/-- The async flip applied to one class member (source lines 134-142 and
186-194): a method whose key is an identifier named in
`PASSWORD_FIELD_ASYNC_METHODS` is marked async; everything else is kept. -/
def asyncFlipMember (mb : ClassMember) : ClassMember :=
  match mb with
  | .method keyIsIdentifier n isAsync body =>
    .method keyIsIdentifier n
      (isAsync || (keyIsIdentifier && PASSWORD_FIELD_ASYNC_METHODS.contains n)) body
  | other => other

/-- Update of the class with the given identifier. -/
def updateClass (f : File) (id : String) (g : ClassDecl → ClassDecl) : File :=
  { f with classes := f.classes.map fun c => if c.id = id then g c else c }

/-- Character-list split on the path separator. -/
def splitSlash : List Char → List (List Char)
  | [] => [[]]
  | c :: cs =>
    if c = '/' then [] :: splitSlash cs
    else
      match splitSlash cs with
      | [] => [[c]]
      | s :: ss => (c :: s) :: ss

/-- Removal of the shared leading segments of two segment lists. -/
def dropSharedRoot : List (List Char) → List (List Char) → List (List Char) × List (List Char)
  | a :: as_, b :: bs => if a = b then dropSharedRoot as_ bs else (a :: as_, b :: bs)
  | as_, bs => (as_, bs)

/-- Removal of a trailing `.ts` from one segment. -/
def stripTsExt (s : List Char) : List Char :=
  if s.reverse.take 3 = ['s', 't', '.'] then (s.reverse.drop 3).reverse else s

/-- Removal of the `.ts` extension from the final segment. -/
def stripExtLast : List (List Char) → List (List Char)
  | [] => []
  | [s] => [stripTsExt s]
  | s :: rest => s :: stripExtLast rest

/-- Join of segments with the path separator. -/
def joinSlash : List (List Char) → List Char
  | [] => []
  | [s] => s
  | s :: rest => s ++ '/' :: joinSlash rest

/-- Modelled from the spec: `relativeImportPath` from `util/module` (not in
the sources) computes the import path between two artifact destinations:
the path of `to` relative to the directory of `from`, with the `.ts`
extension removed and a leading `./` added when the result does not already
start with a dot. -/
def relativeImportPath (fromPath toPath : String) : String :=
  let fromParts := splitSlash fromPath.data
  let toParts := splitSlash toPath.data
  let fromDirs := fromParts.dropLast
  let rest := dropSharedRoot fromDirs toParts
  let ups : List (List Char) := rest.1.map fun _ => ['.', '.']
  let parts := ups ++ stripExtLast rest.2
  if rest.1.isEmpty then ⟨'.' :: '/' :: joinSlash parts⟩ else ⟨joinSlash parts⟩

/-- The operations performed by the two artifact pipelines of
`create-service.ts`, in the order the source applies them.  Import additions
carry the imported names and the two destination paths whose relative path
they compute. -/
inductive Step where
  | interpolateStep
  | removeTSClassDeclaresStep
  | addImportsStep (names : List String) (fromPath toPath : String)
  | addInjectableDependencyStep
  | addSuperCallIdentifierStep
  | markAsyncMethodsStep
  | removeTSIgnoreCommentsStep
  | removeESLintCommentsStep
  | removeTSVariableDeclaresStep
  | removeTSInterfaceDeclaresStep

/-- Effect of one pipeline step on the syntax-tree state.  `targetId` is the
identifier of the class the password-field mutators address
(`getClassDeclarationById`, source lines 123 and 177); when it is absent the
step fails with `TargetNotFound` as the spec's failure taxonomy names it. -/
def applyStep (m : List (String × Expression)) (targetId : String) :
    Step → File → Except String File
  | .interpolateStep, f => .ok (interpolate f m)
  | .removeTSClassDeclaresStep, f => .ok (removeTSClassDeclares f)
  | .addImportsStep names fromPath toPath, f =>
    .ok (addImports f [{ names := names, path := relativeImportPath fromPath toPath }])
  | .addInjectableDependencyStep, f =>
    match findClass f targetId with
    | none => .error "TargetNotFound"
    | some _ =>
      .ok (updateClass f targetId fun c =>
        addInjectableDependency c PASSWORD_SERVICE_MEMBER_ID PASSWORD_SERVICE_ID "protected")
  | .addSuperCallIdentifierStep, f =>
    .ok (addIdentifierToConstructorSuperCall f PASSWORD_SERVICE_MEMBER_ID)
  | .markAsyncMethodsStep, f =>
    match findClass f targetId with
    | none => .error "TargetNotFound"
    | some _ =>
      .ok (updateClass f targetId fun c => { c with members := c.members.map asyncFlipMember })
  | .removeTSIgnoreCommentsStep, f => .ok (removeTSIgnoreComments f)
  | .removeESLintCommentsStep, f => .ok (removeESLintComments f)
  | .removeTSVariableDeclaresStep, f => .ok (removeTSVariableDeclares f)
  | .removeTSInterfaceDeclaresStep, f => .ok (removeTSInterfaceDeclares f)

/-- Destination path of the concrete artifact (source line 106). -/
def serviceModulePath (entityName : String) : String :=
  SRC_DIRECTORY ++ "/" ++ entityName ++ "/" ++ entityName ++ ".service.ts"

/-- Destination path of the base artifact (source lines 107 and 170). -/
def serviceBaseModulePath (entityName : String) : String :=
  SRC_DIRECTORY ++ "/" ++ entityName ++ "/base/" ++ entityName ++ ".service.base.ts"

/-- The operations of `createServiceModule` (source lines 110-155) in source
order: interpolation, scaffold class-declare removal, the base-class import,
then - only when the entity has password fields - dependency injection, the
super-call splice, the async flips and the password-service import, and
finally the remaining scaffold removals. -/
def serviceSteps (entityName serviceBaseIdName : String) (hasPasswordFields : Bool) :
    List Step :=
  [.interpolateStep, .removeTSClassDeclaresStep,
   .addImportsStep [serviceBaseIdName] (serviceModulePath entityName)
     (serviceBaseModulePath entityName)] ++
  (if hasPasswordFields then
    [.addInjectableDependencyStep, .addSuperCallIdentifierStep, .markAsyncMethodsStep,
     .addImportsStep [PASSWORD_SERVICE_ID] (serviceModulePath entityName)
       PASSWORD_SERVICE_MODULE_PATH]
  else []) ++
  [.removeTSIgnoreCommentsStep, .removeESLintCommentsStep,
   .removeTSVariableDeclaresStep, .removeTSInterfaceDeclaresStep]

/-- The operations of `createServiceBaseModule` (source lines 173-214) in
source order: interpolation, scaffold class-declare removal, then - only when
the entity has password fields - dependency injection, the async flips, the
password-service import and the conditional-transform helper import, and
finally the remaining scaffold removals. -/
def serviceBaseSteps (entityName : String) (hasPasswordFields : Bool) : List Step :=
  [.interpolateStep, .removeTSClassDeclaresStep] ++
  (if hasPasswordFields then
    [.addInjectableDependencyStep, .markAsyncMethodsStep,
     .addImportsStep [PASSWORD_SERVICE_ID] (serviceBaseModulePath entityName)
       PASSWORD_SERVICE_MODULE_PATH,
     .addImportsStep [TRANSFORM_STRING_FIELD_UPDATE_INPUT_ID]
       (serviceBaseModulePath entityName) PRISMA_UTIL_MODULE_PATH]
  else []) ++
  [.removeTSIgnoreCommentsStep, .removeESLintCommentsStep,
   .removeTSVariableDeclaresStep, .removeTSInterfaceDeclaresStep]

/-- An output artifact (`Module` in the source; renamed here because `Module`
is taken by the ambient library): the destination path plus the finished
syntax tree (rendering the tree to text is the external `print` collaborator
and is kept outside the model). -/
structure OutputModule where
  path : String
  file : File

/-- `createServiceModule` (source lines 99-161): the concrete-artifact
pipeline, folded over the template tree.  The template itself is the
externally loaded `service.template.ts`. -/
def createServiceModule (entityName : String) (m : List (String × Expression))
    (passwordFields : List EntityField) (serviceId serviceBaseId : String)
    (template : File) : Except String OutputModule := do
  let file ← (serviceSteps entityName serviceBaseId (!passwordFields.isEmpty)).foldlM
    (fun f s => applyStep m serviceId s f) template
  pure { path := serviceModulePath entityName, file := file }

/-- `createServiceBaseModule` (source lines 163-220): the base-artifact
pipeline, folded over the externally loaded `service.base.template.ts`. -/
def createServiceBaseModule (entityName : String) (m : List (String × Expression))
    (passwordFields : List EntityField) (serviceId serviceBaseId : String)
    (template : File) : Except String OutputModule := do
  let file ← (serviceBaseSteps entityName (!passwordFields.isEmpty)).foldlM
    (fun f s => applyStep m serviceBaseId s f) template
  pure { path := serviceBaseModulePath entityName, file := file }

/-- `createServiceModules` (source lines 38-97): computes the service
identifiers, filters the password fields, builds the substitution mapping
once, and produces the two coupled artifacts with the same mapping and the
same password-field decision. -/
def createServiceModules (entityName entityType : String) (entity : Entity)
    (serviceTemplate serviceBaseTemplate : File) : Except String (List OutputModule) := do
  let serviceId := createServiceId entityType
  let serviceBaseId := createServiceBaseId entityType
  let passwordFields := entity.fields.filter isPasswordField
  let mapping := serviceMapping entityName entityType passwordFields
  let concrete ← createServiceModule entityName mapping passwordFields serviceId
    serviceBaseId serviceTemplate
  let base ← createServiceBaseModule entityName mapping passwordFields serviceId
    serviceBaseId serviceBaseTemplate
  pure [concrete, base]

/-- The value of the last property with the given key among the parts of an
object expression (the occurrence that wins under the host language's object
spread semantics). -/
def lastProp (props : List (Option String × Expression)) (k : String) : Option Expression :=
  ((props.filter fun p => p.1 = some k).getLast?).map fun p => p.2

/-- Modelled from the spec: the host-language values the update-mapping
expression can take - absent (`undefined`), `null`, strings, and the result
of the conditional-transform helper. -/
inductive JSValue where
  | undef
  | nullV
  | strV (s : String)
  | transformedV (v : JSValue)
deriving DecidableEq

/-- Modelled from the spec: host-language truthiness of the values above
(absent, null and the empty string are falsy). -/
def truthy : JSValue → Bool
  | .undef => false
  | .nullV => false
  | .strV s => !s.isEmpty
  | .transformedV _ => true

/-- Modelled from the spec: evaluation of the expression fragment used by the
update mapping, under an environment giving the supplied value of each
`args.data.<field>`.  The result pairs the value with the number of times the
conditional-transform helper was invoked; `&&` short-circuits as in the host
language.  Expressions outside the fragment evaluate to `none`. -/
def evalShortCircuit (env : String → JSValue) : Expression → Option (JSValue × Nat)
  | .member (.member (.ident "args") "data") fieldName => some (env fieldName, 0)
  | .logicalAnd l r => do
    let lv ← evalShortCircuit env l
    if truthy lv.1 then do
      let rv ← evalShortCircuit env r
      pure (rv.1, lv.2 + rv.2)
    else
      pure lv
  | .awaitE e => evalShortCircuit env e
  | .call2 (.ident "transformStringFieldUpdateInput") a _ => do
    let av ← evalShortCircuit env a
    pure (.transformedV av.1, av.2 + 1)
  | _ => none

/-- A nonempty list all of whose elements are `c` has last element `c`. -/
theorem getLast?_of_all_eq {α : Type} (l : List α) (c : α) (h1 : l ≠ [])
    (h2 : ∀ x ∈ l, x = c) : l.getLast? = some c := by
  induction l with
  | nil => exact absurd rfl h1
  | cons a l ih =>
    cases l with
    | nil => simpa using h2 a (by simp)
    | cons b m =>
      rw [List.getLast?_cons_cons]
      exact ih (by simp) fun x hx => h2 x (by simp [hx])

/-- Among the keyed override properties generated from a field list, the last
occurrence of key `k` carries the override value for `k`, whenever some field
is named `k`. -/
theorem lastProp_map_override (l : List EntityField) (k : String)
    (v : String → Expression) (h : ∃ f ∈ l, f.name = k) :
    lastProp (l.map fun f => (some f.name, v f.name)) k = some (v k) := by
  obtain ⟨f, hf, hname⟩ := h
  unfold lastProp
  have hmem : (some k, v k) ∈ (l.map fun f => (some f.name, v f.name)).filter
      fun p => p.1 = some k := by
    rw [List.mem_filter]
    refine ⟨List.mem_map.2 ⟨f, hf, by rw [hname]⟩, by simp⟩
  have hne : ((l.map fun f => (some f.name, v f.name)).filter
      fun p => p.1 = some k) ≠ [] := List.ne_nil_of_mem hmem
  have hall : ∀ x ∈ (l.map fun f => (some f.name, v f.name)).filter
      (fun p => p.1 = some k), x = (some k, v k) := by
    intro x hx
    rw [List.mem_filter] at hx
    obtain ⟨hx1, hx2⟩ := hx
    obtain ⟨g, _, hg⟩ := List.mem_map.1 hx1
    simp only [decide_eq_true_eq] at hx2
    rw [← hg] at hx2 ⊢
    simp only [Option.some.injEq] at hx2
    simp [hx2]
  rw [getLast?_of_all_eq _ _ hne hall]
  rfl

/-- A leading spread part (key `none`) never contributes a keyed occurrence. -/
theorem lastProp_cons_spread (e : Expression) (props : List (Option String × Expression))
    (k : String) : lastProp ((none, e) :: props) k = lastProp props k := by
  simp [lastProp]

/-- Claim C1: for an entity with at least one password field, the
`CREATE_ARGS_MAPPING` slot built by `createServiceModules` is the object
expression that spreads `args`, then inside the `data` property spreads
`args.data` and afterwards lists one override per password field whose value
is `await this.passwordService.hash(args.data.field)`; consequently the last
occurrence of each password field's key in the data object is the hashed
override, regardless of the field's position. -/
theorem claim_C1 (entityName entityType : String) (entity : Entity)
    (h : entity.fields.filter isPasswordField ≠ []) :
    lookupExpr
        (serviceMapping entityName entityType (entity.fields.filter isPasswordField))
        "CREATE_ARGS_MAPPING" =
      some (.objectE
        [(none, ARGS_ID),
         (some DATA_ID,
          .objectE ((none, .member ARGS_ID DATA_ID) ::
            (entity.fields.filter isPasswordField).map fun f =>
              (some f.name, createArgsFieldValue f.name)))]) ∧
    ∀ f ∈ entity.fields.filter isPasswordField,
      lastProp ((none, .member ARGS_ID DATA_ID) ::
          (entity.fields.filter isPasswordField).map fun g =>
            (some g.name, createArgsFieldValue g.name)) f.name =
        some (createArgsFieldValue f.name) := by
  constructor
  · have hmap : ((entity.fields.filter isPasswordField).map fun field =>
        (field.name, createArgsFieldValue field.name)).isEmpty = false := by
      simp [List.isEmpty_iff, h]
    simp [serviceMapping, lookupExpr, createMutationDataMapping, hmap, List.map_map,
      Function.comp]
  · intro f hf
    rw [lastProp_cons_spread]
    exact lastProp_map_override _ _ _ ⟨f, hf, rfl⟩

/-- The sample entity of the spec's scenario: fields `name` and a sensitive
`password`. -/
def customerEntity : Entity :=
  ⟨[⟨"name", false⟩, ⟨"password", true⟩]⟩

theorem claim_C1_witness :
    customerEntity.fields.filter isPasswordField ≠ [] ∧
    (lookupExpr
        (serviceMapping "customer" "Customer"
          (customerEntity.fields.filter isPasswordField))
        "CREATE_ARGS_MAPPING" =
      some (.objectE
        [(none, ARGS_ID),
         (some DATA_ID,
          .objectE ((none, .member ARGS_ID DATA_ID) ::
            (customerEntity.fields.filter isPasswordField).map fun f =>
              (some f.name, createArgsFieldValue f.name)))]) ∧
    ∀ f ∈ customerEntity.fields.filter isPasswordField,
      lastProp ((none, .member ARGS_ID DATA_ID) ::
          (customerEntity.fields.filter isPasswordField).map fun g =>
            (some g.name, createArgsFieldValue g.name)) f.name =
        some (createArgsFieldValue f.name)) :=
  ⟨by simp [customerEntity, isPasswordField],
   claim_C1 "customer" "Customer" customerEntity
     (by simp [customerEntity, isPasswordField])⟩

/-- Evaluation of a supplied field access in the update fragment. -/
theorem evalShortCircuit_dataMember (env : String → JSValue) (fieldName : String) :
    evalShortCircuit env (.member (.member (.ident "args") "data") fieldName) =
      some (env fieldName, 0) :=
  rfl

/-- Evaluation of a short-circuit conjunction in the update fragment. -/
theorem evalShortCircuit_logicalAnd (env : String → JSValue) (l r : Expression) :
    evalShortCircuit env (.logicalAnd l r) =
      (do
        let lv ← evalShortCircuit env l
        if truthy lv.1 then do
          let rv ← evalShortCircuit env r
          pure (rv.1, lv.2 + rv.2)
        else
          pure lv) :=
  rfl

/-- Evaluation of an awaited conditional-transform call. -/
theorem evalShortCircuit_transform (env : String → JSValue) (a b : Expression) :
    evalShortCircuit env
        (.awaitE (.call2 (.ident "transformStringFieldUpdateInput") a b)) =
      (do
        let av ← evalShortCircuit env a
        pure (JSValue.transformedV av.1, av.2 + 1)) :=
  rfl

/-- The update override evaluates to the original value, with zero transform
invocations, when the supplied value is falsy; and to one transform
invocation on the supplied value when it is truthy. -/
theorem evalShortCircuit_updateOverride (env : String → JSValue) (fieldName : String) :
    evalShortCircuit env (updateArgsFieldValue fieldName) =
      (if truthy (env fieldName) then some (.transformedV (env fieldName), 1)
       else some (env fieldName, 0)) := by
  unfold updateArgsFieldValue TRANSFORM_STRING_FIELD_UPDATE_INPUT_ID ARGS_ID DATA_ID
  rw [evalShortCircuit_logicalAnd, evalShortCircuit_transform, evalShortCircuit_dataMember]
  cases h : truthy (env fieldName) <;> simp [h]

/-- Claim C2: for an entity with at least one password field, the
`UPDATE_ARGS_MAPPING` slot built by `createServiceModules` overrides each
password field's key with the short-circuit conjunction
`args.data.field && await transformStringFieldUpdateInput(args.data.field,
(password) => this.passwordService.hash(password))`; when the supplied value
of the field is absent or falsy, that expression evaluates to the original
value and the transform helper is never invoked. -/
theorem claim_C2 (entityName entityType : String) (entity : Entity)
    (h : entity.fields.filter isPasswordField ≠ []) :
    lookupExpr
        (serviceMapping entityName entityType (entity.fields.filter isPasswordField))
        "UPDATE_ARGS_MAPPING" =
      some (.objectE
        [(none, ARGS_ID),
         (some DATA_ID,
          .objectE ((none, .member ARGS_ID DATA_ID) ::
            (entity.fields.filter isPasswordField).map fun f =>
              (some f.name, updateArgsFieldValue f.name)))]) ∧
    (∀ f ∈ entity.fields.filter isPasswordField,
      lastProp ((none, .member ARGS_ID DATA_ID) ::
          (entity.fields.filter isPasswordField).map fun g =>
            (some g.name, updateArgsFieldValue g.name)) f.name =
        some (updateArgsFieldValue f.name)) ∧
    ∀ f ∈ entity.fields.filter isPasswordField, ∀ env : String → JSValue,
      truthy (env f.name) = false →
        evalShortCircuit env (updateArgsFieldValue f.name) = some (env f.name, 0) := by
  refine ⟨?_, ?_, ?_⟩
  · have hmap : ((entity.fields.filter isPasswordField).map fun field =>
        (field.name, updateArgsFieldValue field.name)).isEmpty = false := by
      simp [List.isEmpty_iff, h]
    simp [serviceMapping, lookupExpr, createMutationDataMapping, hmap, List.map_map,
      Function.comp]
  · intro f hf
    rw [lastProp_cons_spread]
    exact lastProp_map_override _ _ _ ⟨f, hf, rfl⟩
  · intro f hf env henv
    rw [evalShortCircuit_updateOverride, henv]
    simp

theorem claim_C2_witness :
    customerEntity.fields.filter isPasswordField ≠ [] ∧
    (lookupExpr
        (serviceMapping "customer" "Customer"
          (customerEntity.fields.filter isPasswordField))
        "UPDATE_ARGS_MAPPING" =
      some (.objectE
        [(none, ARGS_ID),
         (some DATA_ID,
          .objectE ((none, .member ARGS_ID DATA_ID) ::
            (customerEntity.fields.filter isPasswordField).map fun f =>
              (some f.name, updateArgsFieldValue f.name)))]) ∧
    (∀ f ∈ customerEntity.fields.filter isPasswordField,
      lastProp ((none, .member ARGS_ID DATA_ID) ::
          (customerEntity.fields.filter isPasswordField).map fun g =>
            (some g.name, updateArgsFieldValue g.name)) f.name =
        some (updateArgsFieldValue f.name)) ∧
    ∀ f ∈ customerEntity.fields.filter isPasswordField, ∀ env : String → JSValue,
      truthy (env f.name) = false →
        evalShortCircuit env (updateArgsFieldValue f.name) = some (env f.name, 0)) :=
  ⟨by simp [customerEntity, isPasswordField],
   claim_C2 "customer" "Customer" customerEntity
     (by simp [customerEntity, isPasswordField])⟩

/-- Folding the concrete pipeline with no password fields: the artifact is
exactly interpolation, scaffold class-declare removal, the base-class import
and the four trailing scaffold removals. -/
theorem createServiceModule_no_password (entityName serviceBaseId : String)
    (m : List (String × Expression)) (serviceId : String) (template : File) :
    createServiceModule entityName m [] serviceId serviceBaseId template =
      .ok { path := serviceModulePath entityName,
            file := removeTSInterfaceDeclares (removeTSVariableDeclares
              (removeESLintComments (removeTSIgnoreComments
                (addImports (removeTSClassDeclares (interpolate template m))
                  [{ names := [serviceBaseId],
                     path := relativeImportPath (serviceModulePath entityName)
                       (serviceBaseModulePath entityName) }])))) } := by
  simp [createServiceModule, serviceSteps, applyStep, List.foldlM, Bind.bind, Except.bind,
    pure, Except.pure]

/-- Folding the base pipeline with no password fields: the artifact is
exactly interpolation, scaffold class-declare removal and the four trailing
scaffold removals. -/
theorem createServiceBaseModule_no_password (entityName : String)
    (m : List (String × Expression)) (serviceId serviceBaseId : String) (template : File) :
    createServiceBaseModule entityName m [] serviceId serviceBaseId template =
      .ok { path := serviceBaseModulePath entityName,
            file := removeTSInterfaceDeclares (removeTSVariableDeclares
              (removeESLintComments (removeTSIgnoreComments
                (removeTSClassDeclares (interpolate template m))))) } := by
  simp [createServiceBaseModule, serviceBaseSteps, applyStep, List.foldlM, Bind.bind,
    Except.bind, pure, Except.pure]

/-- The classes of a file are untouched by import addition. -/
theorem classes_addImports (f : File) (imps : List ImportDecl) :
    (addImports f imps).classes = f.classes := by
  induction imps generalizing f with
  | nil => rfl
  | cons i rest ih =>
    rw [addImports, ih]
    split <;> rfl

/-- Class lookup is unaffected by import addition. -/
@[simp] theorem findClass_addImports (f : File) (imps : List ImportDecl) (id : String) :
    findClass (addImports f imps) id = findClass f id := by
  unfold findClass
  rw [classes_addImports]

/-- Class lookup is unaffected by scaffold class-declare removal. -/
@[simp] theorem findClass_removeTSClassDeclares (f : File) (id : String) :
    findClass (removeTSClassDeclares f) id = findClass f id :=
  rfl

/-- Class lookup after an identifier-preserving rewrite of every class. -/
theorem findClass_map_classes (f : File) (h : ClassDecl → ClassDecl)
    (hid : ∀ c, (h c).id = c.id) (id : String) :
    findClass { f with classes := f.classes.map h } id = (findClass f id).map h := by
  show (f.classes.map h).find? (fun c => c.id = id) =
    (f.classes.find? fun c => c.id = id).map h
  induction f.classes with
  | nil => rfl
  | cons a l ih =>
    simp only [List.map_cons]
    by_cases ha : a.id = id
    · rw [List.find?_cons_of_pos _ (by simp [hid, ha]),
        List.find?_cons_of_pos _ (by simp [ha])]
      simp
    · rw [List.find?_cons_of_neg _ (by simp [hid, ha]),
        List.find?_cons_of_neg _ (by simp [ha])]
      exact ih

/-- Class lookup after an identifier-preserving update of the target class. -/
theorem findClass_updateClass (f : File) (id : String) (g : ClassDecl → ClassDecl)
    (hid : ∀ c, (g c).id = c.id) :
    findClass (updateClass f id g) id = (findClass f id).map g := by
  unfold updateClass
  rw [findClass_map_classes f _ (fun c => by by_cases h : c.id = id <;> simp [h, hid])]
  cases hc : findClass f id with
  | none => rfl
  | some c =>
    have : c.id = id := by
      have := List.find?_some hc
      simpa using this
    simp [this]

/-- Class lookup after dependency injection into the target class. -/
@[simp] theorem findClass_inject (f : File) (id a b v : String) :
    findClass (updateClass f id fun c => addInjectableDependency c a b v) id =
      (findClass f id).map fun c => addInjectableDependency c a b v :=
  findClass_updateClass f id _ fun c => rfl

/-- Class lookup after the super-call splice. -/
@[simp] theorem findClass_superCallAdd (f : File) (x id : String) :
    findClass (addIdentifierToConstructorSuperCall f x) id =
      (findClass f id).map fun c =>
        { c with superCallArgs := c.superCallArgs.map fun args => args ++ [x] } := by
  unfold addIdentifierToConstructorSuperCall
  exact findClass_map_classes f
    (fun c => { c with superCallArgs := c.superCallArgs.map fun args => args ++ [x] })
    (fun c => rfl) id


/-- Folding the concrete pipeline when the entity has password fields and the
interpolated template contains the target class: the base-class import, then
dependency injection, the super-call splice, the async flips and the
password-service import, then the scaffold removals. -/
theorem createServiceModule_password (entityName serviceBaseId : String)
    (m : List (String × Expression)) (passwordFields : List EntityField)
    (serviceId : String) (template : File) (hpf : passwordFields ≠ [])
    (c : ClassDecl) (hc : findClass (interpolate template m) serviceId = some c) :
    createServiceModule entityName m passwordFields serviceId serviceBaseId template =
      .ok { path := serviceModulePath entityName,
            file := removeTSInterfaceDeclares (removeTSVariableDeclares
              (removeESLintComments (removeTSIgnoreComments
                (addImports
                  (updateClass
                    (addIdentifierToConstructorSuperCall
                      (updateClass
                        (addImports (removeTSClassDeclares (interpolate template m))
                          [{ names := [serviceBaseId],
                             path := relativeImportPath (serviceModulePath entityName)
                               (serviceBaseModulePath entityName) }])
                        serviceId fun cl =>
                          addInjectableDependency cl PASSWORD_SERVICE_MEMBER_ID
                            PASSWORD_SERVICE_ID "protected")
                      PASSWORD_SERVICE_MEMBER_ID)
                    serviceId fun cl => { cl with members := cl.members.map asyncFlipMember })
                  [{ names := [PASSWORD_SERVICE_ID],
                     path := relativeImportPath (serviceModulePath entityName)
                       PASSWORD_SERVICE_MODULE_PATH }])))) } := by
  have hne : passwordFields.isEmpty = false := by simp [List.isEmpty_iff, hpf]
  simp [createServiceModule, serviceSteps, applyStep, List.foldlM, Bind.bind, Except.bind,
    pure, Except.pure, hne, hc]

/-- Folding the base pipeline when the entity has password fields and the
interpolated template contains the target class: dependency injection, the
async flips, the password-service import and the conditional-transform
helper import, then the scaffold removals. -/
theorem createServiceBaseModule_password (entityName : String)
    (m : List (String × Expression)) (passwordFields : List EntityField)
    (serviceId serviceBaseId : String) (template : File) (hpf : passwordFields ≠ [])
    (c : ClassDecl) (hc : findClass (interpolate template m) serviceBaseId = some c) :
    createServiceBaseModule entityName m passwordFields serviceId serviceBaseId template =
      .ok { path := serviceBaseModulePath entityName,
            file := removeTSInterfaceDeclares (removeTSVariableDeclares
              (removeESLintComments (removeTSIgnoreComments
                (addImports
                  (addImports
                    (updateClass
                      (updateClass (removeTSClassDeclares (interpolate template m))
                        serviceBaseId fun cl =>
                          addInjectableDependency cl PASSWORD_SERVICE_MEMBER_ID
                            PASSWORD_SERVICE_ID "protected")
                      serviceBaseId fun cl =>
                        { cl with members := cl.members.map asyncFlipMember })
                    [{ names := [PASSWORD_SERVICE_ID],
                       path := relativeImportPath (serviceBaseModulePath entityName)
                         PASSWORD_SERVICE_MODULE_PATH }])
                  [{ names := [TRANSFORM_STRING_FIELD_UPDATE_INPUT_ID],
                     path := relativeImportPath (serviceBaseModulePath entityName)
                       PRISMA_UTIL_MODULE_PATH }])))) } := by
  have hne : passwordFields.isEmpty = false := by simp [List.isEmpty_iff, hpf]
  simp [createServiceBaseModule, serviceBaseSteps, applyStep, List.foldlM, Bind.bind,
    Except.bind, pure, Except.pure, hne, hc]

/-- Class lookup is unaffected by the trailing scaffold removals. -/
@[simp] theorem findClass_removeTSIgnoreComments (f : File) (id : String) :
    findClass (removeTSIgnoreComments f) id = findClass f id :=
  rfl

@[simp] theorem findClass_removeESLintComments (f : File) (id : String) :
    findClass (removeESLintComments f) id = findClass f id :=
  rfl

@[simp] theorem findClass_removeTSVariableDeclares (f : File) (id : String) :
    findClass (removeTSVariableDeclares f) id = findClass f id :=
  rfl

@[simp] theorem findClass_removeTSInterfaceDeclares (f : File) (id : String) :
    findClass (removeTSInterfaceDeclares f) id = findClass f id :=
  rfl

/-- The concrete pipeline fails with `TargetNotFound` when the entity has
password fields but the interpolated template lacks the target class. -/
theorem createServiceModule_missing_class (entityName serviceBaseId : String)
    (m : List (String × Expression)) (passwordFields : List EntityField)
    (serviceId : String) (template : File) (hpf : passwordFields ≠ [])
    (hc : findClass (interpolate template m) serviceId = none) :
    createServiceModule entityName m passwordFields serviceId serviceBaseId template =
      .error "TargetNotFound" := by
  have hne : passwordFields.isEmpty = false := by simp [List.isEmpty_iff, hpf]
  simp [createServiceModule, serviceSteps, applyStep, List.foldlM, Bind.bind, Except.bind,
    pure, Except.pure, hne, hc]

/-- The base pipeline fails with `TargetNotFound` when the entity has
password fields but the interpolated template lacks the target class. -/
theorem createServiceBaseModule_missing_class (entityName : String)
    (m : List (String × Expression)) (passwordFields : List EntityField)
    (serviceId serviceBaseId : String) (template : File) (hpf : passwordFields ≠ [])
    (hc : findClass (interpolate template m) serviceBaseId = none) :
    createServiceBaseModule entityName m passwordFields serviceId serviceBaseId template =
      .error "TargetNotFound" := by
  have hne : passwordFields.isEmpty = false := by simp [List.isEmpty_iff, hpf]
  simp [createServiceBaseModule, serviceBaseSteps, applyStep, List.foldlM, Bind.bind,
    Except.bind, pure, Except.pure, hne, hc]

/-- A successful orchestrator call decomposes into one concrete-pipeline call
and one base-pipeline call that receive the identical substitution mapping
and the identical filtered password-field list. -/
theorem createServiceModules_ok (entityName entityType : String) (entity : Entity)
    (tS tB : File) (mods : List OutputModule)
    (h : createServiceModules entityName entityType entity tS tB = .ok mods) :
    ∃ m1 m2, mods = [m1, m2] ∧
      createServiceModule entityName
          (serviceMapping entityName entityType (entity.fields.filter isPasswordField))
          (entity.fields.filter isPasswordField) (createServiceId entityType)
          (createServiceBaseId entityType) tS = .ok m1 ∧
      createServiceBaseModule entityName
          (serviceMapping entityName entityType (entity.fields.filter isPasswordField))
          (entity.fields.filter isPasswordField) (createServiceId entityType)
          (createServiceBaseId entityType) tB = .ok m2 := by
  unfold createServiceModules at h
  dsimp only at h
  cases hS : createServiceModule entityName
      (serviceMapping entityName entityType (entity.fields.filter isPasswordField))
      (entity.fields.filter isPasswordField) (createServiceId entityType)
      (createServiceBaseId entityType) tS with
  | error e =>
    rw [hS] at h
    simp [Bind.bind, Except.bind] at h
  | ok m1 =>
    rw [hS] at h
    cases hB : createServiceBaseModule entityName
        (serviceMapping entityName entityType (entity.fields.filter isPasswordField))
        (entity.fields.filter isPasswordField) (createServiceId entityType)
        (createServiceBaseId entityType) tB with
    | error e =>
      rw [hB] at h
      simp [Bind.bind, Except.bind] at h
    | ok m2 =>
      rw [hB] at h
      simp only [Bind.bind, Except.bind, pure, Except.pure, Except.ok.injEq] at h
      exact ⟨m1, m2, h.symm, rfl, rfl⟩

/-- Class lookup after the async flips of the target class. -/
@[simp] theorem findClass_flipUpdate (f : File) (id : String) :
    findClass
        (updateClass f id fun cl => { cl with members := cl.members.map asyncFlipMember })
        id =
      (findClass f id).map fun cl => { cl with members := cl.members.map asyncFlipMember } :=
  findClass_updateClass f id _ fun c => rfl

/-- Appending one import declaration appends its names. -/
theorem importedNames_append_imports (f : File) (i : ImportDecl) :
    importedNames { f with imports := f.imports ++ [i] } = importedNames f ++ i.names := by
  unfold importedNames
  simp [List.flatMap_append]

/-- Names imported by a file grow monotonically under import addition. -/
theorem mem_importedNames_addImports (f : File) (imps : List ImportDecl) (n : String)
    (h : n ∈ importedNames f) : n ∈ importedNames (addImports f imps) := by
  induction imps generalizing f with
  | nil => exact h
  | cons i rest ih =>
    rw [addImports]
    refine ih _ ?_
    split
    · exact h
    · rw [importedNames_append_imports]
      exact List.mem_append_left _ h

/-- Adding an import declaration makes each of its names imported. -/
theorem mem_importedNames_addImports_self (f : File) (i : ImportDecl) (n : String)
    (h : n ∈ i.names) : n ∈ importedNames (addImports f [i]) := by
  rw [addImports, addImports]
  by_cases hn : n ∈ importedNames f
  · split
    · exact hn
    · rw [importedNames_append_imports]
      exact List.mem_append_left _ hn
  · have hfr : n ∈ i.names.filter fun x => !(importedNames f).contains x := by
      rw [List.mem_filter]
      exact ⟨h, by simpa using hn⟩
    split
    · next hEmp =>
        rw [List.isEmpty_iff] at hEmp
        rw [hEmp] at hfr
        exact absurd hfr (List.not_mem_nil n)
    · rw [importedNames_append_imports]
      exact List.mem_append_right _ hfr

/-- A name absent from the file and from the added declarations stays
absent. -/
theorem not_mem_importedNames_addImports (f : File) (imps : List ImportDecl) (n : String)
    (hf : n ∉ importedNames f) (hi : ∀ i ∈ imps, n ∉ i.names) :
    n ∉ importedNames (addImports f imps) := by
  induction imps generalizing f with
  | nil => exact hf
  | cons i rest ih =>
    rw [addImports]
    refine ih _ ?_ fun j hj => hi j (by simp [hj])
    split
    · exact hf
    · rw [importedNames_append_imports]
      intro hmem
      rcases List.mem_append.1 hmem with h1 | h2
      · exact hf h1
      · exact hi i (by simp) (List.mem_filter.1 h2).1

/-- The target class of a successful concrete-pipeline run: members are the
interpolated template's members when there are no password fields, and
otherwise the async-flipped members plus the injected collaborator. -/
theorem findClass_createServiceModule (entityName serviceBaseId : String)
    (m : List (String × Expression)) (pf : List EntityField) (serviceId : String)
    (tS : File) (m1 : OutputModule)
    (hS : createServiceModule entityName m pf serviceId serviceBaseId tS = .ok m1)
    (c1 : ClassDecl) (hc1 : findClass (interpolate tS m) serviceId = some c1) :
    ∃ c1', findClass m1.file serviceId = some c1' ∧
      c1'.members =
        (if pf.isEmpty then c1.members
         else c1.members.map asyncFlipMember ++
           [.injectedDep PASSWORD_SERVICE_MEMBER_ID PASSWORD_SERVICE_ID "protected"]) := by
  by_cases hpf : pf.isEmpty
  · rw [List.isEmpty_iff] at hpf
    subst hpf
    rw [createServiceModule_no_password] at hS
    have hfile := Except.ok.inj hS
    rw [← hfile]
    refine ⟨c1, ?_, by simp⟩
    simp [hc1]
  · have hpfne : pf ≠ [] := by simpa [List.isEmpty_iff] using hpf
    rw [createServiceModule_password entityName serviceBaseId _ _ serviceId tS hpfne
      c1 hc1] at hS
    have hfile := Except.ok.inj hS
    rw [← hfile]
    refine ⟨{ id := c1.id, superClass := c1.superClass,
              superCallArgs := c1.superCallArgs.map fun args =>
                args ++ [PASSWORD_SERVICE_MEMBER_ID],
              members := c1.members.map asyncFlipMember ++
                [.injectedDep PASSWORD_SERVICE_MEMBER_ID PASSWORD_SERVICE_ID
                  "protected"] }, ?_, by simp [hpf]⟩
    simp only [findClass_removeTSInterfaceDeclares, findClass_removeTSVariableDeclares,
      findClass_removeESLintComments, findClass_removeTSIgnoreComments,
      findClass_addImports, findClass_flipUpdate, findClass_superCallAdd,
      findClass_inject, findClass_removeTSClassDeclares, hc1, Option.map_some]
    simp [addInjectableDependency, List.map_append, asyncFlipMember]

/-- The target class of a successful base-pipeline run: members are the
interpolated template's members when there are no password fields, and
otherwise the async-flipped members plus the injected collaborator. -/
theorem findClass_createServiceBaseModule (entityName : String)
    (m : List (String × Expression)) (pf : List EntityField)
    (serviceId serviceBaseId : String) (tB : File) (m2 : OutputModule)
    (hB : createServiceBaseModule entityName m pf serviceId serviceBaseId tB = .ok m2)
    (c2 : ClassDecl) (hc2 : findClass (interpolate tB m) serviceBaseId = some c2) :
    ∃ c2', findClass m2.file serviceBaseId = some c2' ∧
      c2'.members =
        (if pf.isEmpty then c2.members
         else c2.members.map asyncFlipMember ++
           [.injectedDep PASSWORD_SERVICE_MEMBER_ID PASSWORD_SERVICE_ID "protected"]) := by
  by_cases hpf : pf.isEmpty
  · rw [List.isEmpty_iff] at hpf
    subst hpf
    rw [createServiceBaseModule_no_password] at hB
    have hfile := Except.ok.inj hB
    rw [← hfile]
    refine ⟨c2, ?_, by simp⟩
    simp [hc2]
  · have hpfne : pf ≠ [] := by simpa [List.isEmpty_iff] using hpf
    rw [createServiceBaseModule_password entityName _ _ serviceId serviceBaseId tB hpfne
      c2 hc2] at hB
    have hfile := Except.ok.inj hB
    rw [← hfile]
    refine ⟨{ id := c2.id, superClass := c2.superClass,
              superCallArgs := c2.superCallArgs,
              members := c2.members.map asyncFlipMember ++
                [.injectedDep PASSWORD_SERVICE_MEMBER_ID PASSWORD_SERVICE_ID
                  "protected"] }, ?_, by simp [hpf]⟩
    simp only [findClass_removeTSInterfaceDeclares, findClass_removeTSVariableDeclares,
      findClass_removeESLintComments, findClass_removeTSIgnoreComments,
      findClass_addImports, findClass_flipUpdate, findClass_superCallAdd,
      findClass_inject, findClass_removeTSClassDeclares, hc2, Option.map_some]
    simp [addInjectableDependency, List.map_append, asyncFlipMember]

/-- A successful orchestrator run, decomposed, with the password decision
threaded to both artifacts. -/
theorem createServiceModules_isOk (entityName entityType : String) (entity : Entity)
    (tS tB : File)
    (h : (createServiceModules entityName entityType entity tS tB).isOk = true) :
    ∃ m1 m2, createServiceModules entityName entityType entity tS tB = .ok [m1, m2] ∧
      createServiceModule entityName
          (serviceMapping entityName entityType (entity.fields.filter isPasswordField))
          (entity.fields.filter isPasswordField) (createServiceId entityType)
          (createServiceBaseId entityType) tS = .ok m1 ∧
      createServiceBaseModule entityName
          (serviceMapping entityName entityType (entity.fields.filter isPasswordField))
          (entity.fields.filter isPasswordField) (createServiceId entityType)
          (createServiceBaseId entityType) tB = .ok m2 := by
  obtain ⟨mods, hmods⟩ : ∃ mods,
      createServiceModules entityName entityType entity tS tB = .ok mods := by
    cases hr : createServiceModules entityName entityType entity tS tB with
    | error e => rw [hr] at h; exact absurd h (by simp [Except.isOk, Except.toBool])
    | ok mods => exact ⟨mods, rfl⟩
  obtain ⟨m1, m2, hm, hS, hB⟩ :=
    createServiceModules_ok entityName entityType entity tS tB mods hmods
  subst hm
  exact ⟨m1, m2, hmods, hS, hB⟩

/-- Claim C3: one `createServiceModules` call produces the concrete and the
base artifact from the identical substitution mapping and the identical
filtered password-field list; both pipelines branch on the same decision
(the filtered list being nonempty), and when they mutate, both add the same
collaborator member (`passwordService : PasswordService`, protected) and
transform the target class's members with the same async-flip function, so
the async-method decision is identical across the two artifacts. -/
theorem claim_C3 (entityName entityType : String) (entity : Entity) (tS tB : File)
    (h : (createServiceModules entityName entityType entity tS tB).isOk = true) :
    ∃ m1 m2, createServiceModules entityName entityType entity tS tB = .ok [m1, m2] ∧
      createServiceModule entityName
          (serviceMapping entityName entityType (entity.fields.filter isPasswordField))
          (entity.fields.filter isPasswordField) (createServiceId entityType)
          (createServiceBaseId entityType) tS = .ok m1 ∧
      createServiceBaseModule entityName
          (serviceMapping entityName entityType (entity.fields.filter isPasswordField))
          (entity.fields.filter isPasswordField) (createServiceId entityType)
          (createServiceBaseId entityType) tB = .ok m2 ∧
      (∀ c1, findClass (interpolate tS (serviceMapping entityName entityType
            (entity.fields.filter isPasswordField))) (createServiceId entityType) =
              some c1 →
        ∃ c1', findClass m1.file (createServiceId entityType) = some c1' ∧
          c1'.members =
            (if (entity.fields.filter isPasswordField).isEmpty then c1.members
             else c1.members.map asyncFlipMember ++
               [.injectedDep PASSWORD_SERVICE_MEMBER_ID PASSWORD_SERVICE_ID
                 "protected"])) ∧
      (∀ c2, findClass (interpolate tB (serviceMapping entityName entityType
            (entity.fields.filter isPasswordField))) (createServiceBaseId entityType) =
              some c2 →
        ∃ c2', findClass m2.file (createServiceBaseId entityType) = some c2' ∧
          c2'.members =
            (if (entity.fields.filter isPasswordField).isEmpty then c2.members
             else c2.members.map asyncFlipMember ++
               [.injectedDep PASSWORD_SERVICE_MEMBER_ID PASSWORD_SERVICE_ID
                 "protected"])) := by
  obtain ⟨m1, m2, hmods, hS, hB⟩ :=
    createServiceModules_isOk entityName entityType entity tS tB h
  exact ⟨m1, m2, hmods, hS, hB,
    fun c1 hc1 => findClass_createServiceModule _ _ _ _ _ _ _ hS c1 hc1,
    fun c2 hc2 => findClass_createServiceBaseModule _ _ _ _ _ _ _ hB c2 hc2⟩

/-- A sample concrete-service template: the `SERVICE` class extending
`SERVICE_BASE`, a constructor super-call forwarding `prisma`, and the
conventional scaffolded methods. -/
def serviceTemplateSample : File :=
  { imports := []
    classes := [{ id := "SERVICE", superClass := some "SERVICE_BASE",
                  superCallArgs := some ["prisma"],
                  members := [.method true "create" false [.ident "CREATE_ARGS_MAPPING"],
                              .method true "findMany" false [],
                              .method true "findOne" false [],
                              .method true "update" false [.ident "UPDATE_ARGS_MAPPING"],
                              .method true "delete" false []] }]
    classDeclares := ["ENTITY", "SERVICE_BASE"]
    ignoreComments := 2
    eslintComments := 1
    variableDeclares := ["CREATE_ARGS", "UPDATE_ARGS"]
    interfaceDeclares := ["FIND_MANY_ARGS"] }

/-- A sample base-service template: the `SERVICE_BASE` class with the
conventional scaffolded methods and no superclass. -/
def serviceBaseTemplateSample : File :=
  { imports := []
    classes := [{ id := "SERVICE_BASE", superClass := none,
                  superCallArgs := none,
                  members := [.method true "create" false [.ident "CREATE_ARGS_MAPPING"],
                              .method true "findMany" false [],
                              .method true "findOne" false [],
                              .method true "update" false [.ident "UPDATE_ARGS_MAPPING"],
                              .method true "delete" false []] }]
    classDeclares := ["ENTITY"]
    ignoreComments := 1
    eslintComments := 1
    variableDeclares := ["CREATE_ARGS", "UPDATE_ARGS"]
    interfaceDeclares := [] }

theorem claim_C3_witness :
    (createServiceModules "customer" "Customer" customerEntity serviceTemplateSample
      serviceBaseTemplateSample).isOk = true ∧
    (∃ m1 m2, createServiceModules "customer" "Customer" customerEntity
        serviceTemplateSample serviceBaseTemplateSample = .ok [m1, m2] ∧
      createServiceModule "customer"
          (serviceMapping "customer" "Customer"
            (customerEntity.fields.filter isPasswordField))
          (customerEntity.fields.filter isPasswordField) (createServiceId "Customer")
          (createServiceBaseId "Customer") serviceTemplateSample = .ok m1 ∧
      createServiceBaseModule "customer"
          (serviceMapping "customer" "Customer"
            (customerEntity.fields.filter isPasswordField))
          (customerEntity.fields.filter isPasswordField) (createServiceId "Customer")
          (createServiceBaseId "Customer") serviceBaseTemplateSample = .ok m2 ∧
      (∀ c1, findClass (interpolate serviceTemplateSample (serviceMapping "customer"
            "Customer" (customerEntity.fields.filter isPasswordField)))
              (createServiceId "Customer") = some c1 →
        ∃ c1', findClass m1.file (createServiceId "Customer") = some c1' ∧
          c1'.members =
            (if (customerEntity.fields.filter isPasswordField).isEmpty then c1.members
             else c1.members.map asyncFlipMember ++
               [.injectedDep PASSWORD_SERVICE_MEMBER_ID PASSWORD_SERVICE_ID
                 "protected"])) ∧
      (∀ c2, findClass (interpolate serviceBaseTemplateSample (serviceMapping "customer"
            "Customer" (customerEntity.fields.filter isPasswordField)))
              (createServiceBaseId "Customer") = some c2 →
        ∃ c2', findClass m2.file (createServiceBaseId "Customer") = some c2' ∧
          c2'.members =
            (if (customerEntity.fields.filter isPasswordField).isEmpty then c2.members
             else c2.members.map asyncFlipMember ++
               [.injectedDep PASSWORD_SERVICE_MEMBER_ID PASSWORD_SERVICE_ID
                 "protected"]))) :=
  ⟨rfl, claim_C3 "customer" "Customer" customerEntity serviceTemplateSample
    serviceBaseTemplateSample rfl⟩

/-- Claim C4: when the entity has password fields, exactly the class methods
whose key is an identifier named `create` or `update` are flipped to async by
the mutators - the flip function marks those methods async and leaves every
other member (other method names, computed-key methods, properties, injected
members) unchanged - and each artifact's target class carries exactly the
flipped members (plus the injected collaborator). -/
theorem claim_C4 (entityName entityType : String) (entity : Entity) (tS tB : File)
    (hpf : entity.fields.filter isPasswordField ≠ [])
    (h : (createServiceModules entityName entityType entity tS tB).isOk = true) :
    (∀ n a body, (n = "create" ∨ n = "update") →
      asyncFlipMember (.method true n a body) = .method true n true body) ∧
    (∀ k n a body, n ≠ "create" → n ≠ "update" →
      asyncFlipMember (.method k n a body) = .method k n a body) ∧
    (∀ n a body, asyncFlipMember (.method false n a body) = .method false n a body) ∧
    (∀ mn tn v, asyncFlipMember (.injectedDep mn tn v) = .injectedDep mn tn v) ∧
    (∀ n, asyncFlipMember (.property n) = .property n) ∧
    ∃ m1 m2, createServiceModules entityName entityType entity tS tB = .ok [m1, m2] ∧
      (∀ c1, findClass (interpolate tS (serviceMapping entityName entityType
            (entity.fields.filter isPasswordField))) (createServiceId entityType) =
              some c1 →
        ∃ c1', findClass m1.file (createServiceId entityType) = some c1' ∧
          c1'.members = c1.members.map asyncFlipMember ++
            [.injectedDep PASSWORD_SERVICE_MEMBER_ID PASSWORD_SERVICE_ID
              "protected"]) ∧
      (∀ c2, findClass (interpolate tB (serviceMapping entityName entityType
            (entity.fields.filter isPasswordField))) (createServiceBaseId entityType) =
              some c2 →
        ∃ c2', findClass m2.file (createServiceBaseId entityType) = some c2' ∧
          c2'.members = c2.members.map asyncFlipMember ++
            [.injectedDep PASSWORD_SERVICE_MEMBER_ID PASSWORD_SERVICE_ID
              "protected"]) := by
  have hempty : (entity.fields.filter isPasswordField).isEmpty = false := by
    simp [List.isEmpty_iff, hpf]
  obtain ⟨m1, m2, hmods, hS, hB⟩ :=
    createServiceModules_isOk entityName entityType entity tS tB h
  refine ⟨?_, ?_, ?_, fun mn tn v => rfl, fun n => rfl, m1, m2, hmods, ?_, ?_⟩
  · rintro n a body (rfl | rfl) <;>
      simp [asyncFlipMember, PASSWORD_FIELD_ASYNC_METHODS]
  · intro k n a body h1 h2
    simp [asyncFlipMember, PASSWORD_FIELD_ASYNC_METHODS, h1, h2]
  · intro n a body
    simp [asyncFlipMember]
  · intro c1 hc1
    obtain ⟨c1', hfind, hmem⟩ :=
      findClass_createServiceModule _ _ _ _ _ _ _ hS c1 hc1
    rw [hempty] at hmem
    exact ⟨c1', hfind, by simpa using hmem⟩
  · intro c2 hc2
    obtain ⟨c2', hfind, hmem⟩ :=
      findClass_createServiceBaseModule _ _ _ _ _ _ _ hB c2 hc2
    rw [hempty] at hmem
    exact ⟨c2', hfind, by simpa using hmem⟩

theorem claim_C4_witness :
    customerEntity.fields.filter isPasswordField ≠ [] ∧
    (createServiceModules "customer" "Customer" customerEntity serviceTemplateSample
      serviceBaseTemplateSample).isOk = true ∧
    ((∀ n a body, (n = "create" ∨ n = "update") →
      asyncFlipMember (.method true n a body) = .method true n true body) ∧
    (∀ k n a body, n ≠ "create" → n ≠ "update" →
      asyncFlipMember (.method k n a body) = .method k n a body) ∧
    (∀ n a body, asyncFlipMember (.method false n a body) = .method false n a body) ∧
    (∀ mn tn v, asyncFlipMember (.injectedDep mn tn v) = .injectedDep mn tn v) ∧
    (∀ n, asyncFlipMember (.property n) = .property n) ∧
    ∃ m1 m2, createServiceModules "customer" "Customer" customerEntity
        serviceTemplateSample serviceBaseTemplateSample = .ok [m1, m2] ∧
      (∀ c1, findClass (interpolate serviceTemplateSample (serviceMapping "customer"
            "Customer" (customerEntity.fields.filter isPasswordField)))
              (createServiceId "Customer") = some c1 →
        ∃ c1', findClass m1.file (createServiceId "Customer") = some c1' ∧
          c1'.members = c1.members.map asyncFlipMember ++
            [.injectedDep PASSWORD_SERVICE_MEMBER_ID PASSWORD_SERVICE_ID
              "protected"]) ∧
      (∀ c2, findClass (interpolate serviceBaseTemplateSample (serviceMapping "customer"
            "Customer" (customerEntity.fields.filter isPasswordField)))
              (createServiceBaseId "Customer") = some c2 →
        ∃ c2', findClass m2.file (createServiceBaseId "Customer") = some c2' ∧
          c2'.members = c2.members.map asyncFlipMember ++
            [.injectedDep PASSWORD_SERVICE_MEMBER_ID PASSWORD_SERVICE_ID
              "protected"])) :=
  ⟨by simp [customerEntity, isPasswordField], rfl,
   claim_C4 "customer" "Customer" customerEntity serviceTemplateSample
     serviceBaseTemplateSample (by simp [customerEntity, isPasswordField]) rfl⟩

/-- Imports are untouched by the class-level mutators and scaffold strips. -/
@[simp] theorem importedNames_updateClass (f : File) (id : String)
    (g : ClassDecl → ClassDecl) : importedNames (updateClass f id g) = importedNames f :=
  rfl

@[simp] theorem importedNames_superCallAdd (f : File) (x : String) :
    importedNames (addIdentifierToConstructorSuperCall f x) = importedNames f :=
  rfl

@[simp] theorem importedNames_removeTSClassDeclares (f : File) :
    importedNames (removeTSClassDeclares f) = importedNames f :=
  rfl

@[simp] theorem importedNames_removeTSIgnoreComments (f : File) :
    importedNames (removeTSIgnoreComments f) = importedNames f :=
  rfl

@[simp] theorem importedNames_removeESLintComments (f : File) :
    importedNames (removeESLintComments f) = importedNames f :=
  rfl

@[simp] theorem importedNames_removeTSVariableDeclares (f : File) :
    importedNames (removeTSVariableDeclares f) = importedNames f :=
  rfl

@[simp] theorem importedNames_removeTSInterfaceDeclares (f : File) :
    importedNames (removeTSInterfaceDeclares f) = importedNames f :=
  rfl

@[simp] theorem importedNames_interpolate (f : File) (m : List (String × Expression)) :
    importedNames (interpolate f m) = importedNames f :=
  rfl

/-- A base-service identifier never collides with the conditional-transform
helper's name (their suffixes differ). -/
theorem createServiceBaseId_ne_transform (t : String) :
    createServiceBaseId t ≠ TRANSFORM_STRING_FIELD_UPDATE_INPUT_ID := by
  intro h
  have hd : (createServiceBaseId t).data.reverse.take 11 =
      TRANSFORM_STRING_FIELD_UPDATE_INPUT_ID.data.reverse.take 11 := by rw [h]
  rw [createServiceBaseId, String.data_append, List.reverse_append] at hd
  have hlen : ("ServiceBase".data.reverse).length = 11 := by decide
  rw [← hlen, List.take_left] at hd
  exact absurd hd (by decide)

/-- Claim C5: with password fields present, only the concrete artifact has
`passwordService` appended to its superclass-constructor call (existing
arguments kept in order), and only the base artifact gains the import of the
`transformStringFieldUpdateInput` helper; neither operation touches the
other artifact. -/
theorem claim_C5 (entityName entityType : String) (entity : Entity) (tS tB : File)
    (hpf : entity.fields.filter isPasswordField ≠ [])
    (h : (createServiceModules entityName entityType entity tS tB).isOk = true) :
    ∃ m1 m2, createServiceModules entityName entityType entity tS tB = .ok [m1, m2] ∧
      (m1.file.classes.map fun c => c.superCallArgs) =
        ((interpolate tS (serviceMapping entityName entityType
            (entity.fields.filter isPasswordField))).classes.map fun c =>
          c.superCallArgs.map fun args => args ++ [PASSWORD_SERVICE_MEMBER_ID]) ∧
      ((m2.file.classes.map fun c => c.superCallArgs) =
        (interpolate tB (serviceMapping entityName entityType
            (entity.fields.filter isPasswordField))).classes.map fun c =>
          c.superCallArgs) ∧
      TRANSFORM_STRING_FIELD_UPDATE_INPUT_ID ∈ importedNames m2.file ∧
      (TRANSFORM_STRING_FIELD_UPDATE_INPUT_ID ∉ importedNames tS →
        TRANSFORM_STRING_FIELD_UPDATE_INPUT_ID ∉ importedNames m1.file) := by
  obtain ⟨m1, m2, hmods, hS, hB⟩ :=
    createServiceModules_isOk entityName entityType entity tS tB h
  cases hfcS : findClass (interpolate tS (serviceMapping entityName entityType
      (entity.fields.filter isPasswordField))) (createServiceId entityType) with
  | none =>
    rw [createServiceModule_missing_class _ _ _ _ _ _ hpf hfcS] at hS
    exact absurd hS (by simp)
  | some c1 =>
  cases hfcB : findClass (interpolate tB (serviceMapping entityName entityType
      (entity.fields.filter isPasswordField))) (createServiceBaseId entityType) with
  | none =>
    rw [createServiceBaseModule_missing_class _ _ _ _ _ _ hpf hfcB] at hB
    exact absurd hB (by simp)
  | some c2 =>
  rw [createServiceModule_password _ _ _ _ _ _ hpf c1 hfcS] at hS
  rw [createServiceBaseModule_password _ _ _ _ _ _ hpf c2 hfcB] at hB
  have hfile1 := Except.ok.inj hS
  have hfile2 := Except.ok.inj hB
  refine ⟨m1, m2, hmods, ?_, ?_, ?_, ?_⟩
  · rw [← hfile1]
    simp only [removeTSInterfaceDeclares, removeTSVariableDeclares, removeESLintComments,
      removeTSIgnoreComments, updateClass, addIdentifierToConstructorSuperCall]
    rw [classes_addImports]
    simp only [updateClass, List.map_map, classes_addImports, removeTSClassDeclares]
    rw [List.map_eq_map_iff]
    intro c hc
    by_cases hcid : c.id = createServiceId entityType <;>
      simp [Function.comp, hcid, addInjectableDependency]
  · rw [← hfile2]
    simp only [removeTSInterfaceDeclares, removeTSVariableDeclares, removeESLintComments,
      removeTSIgnoreComments, updateClass, List.map_map]
    rw [classes_addImports, classes_addImports]
    simp only [updateClass, List.map_map, removeTSClassDeclares]
    rw [List.map_eq_map_iff]
    intro c hc
    by_cases hcid : c.id = createServiceBaseId entityType <;>
      simp [Function.comp, hcid, addInjectableDependency]
  · rw [← hfile2]
    simp only [importedNames_removeTSInterfaceDeclares, importedNames_removeTSVariableDeclares,
      importedNames_removeESLintComments, importedNames_removeTSIgnoreComments]
    exact mem_importedNames_addImports_self _ _ _ (by simp)
  · intro htS
    rw [← hfile1]
    simp only [importedNames_removeTSInterfaceDeclares, importedNames_removeTSVariableDeclares,
      importedNames_removeESLintComments, importedNames_removeTSIgnoreComments]
    refine not_mem_importedNames_addImports _ _ _ ?_ ?_
    · simp only [importedNames_updateClass, importedNames_superCallAdd]
      refine not_mem_importedNames_addImports _ _ _ ?_ ?_
      · simpa using htS
      · intro i hi
        simp at hi
        rw [hi]
        simp
        exact fun hx => absurd hx.symm (createServiceBaseId_ne_transform entityType)
    · intro i hi
      simp at hi
      rw [hi]
      simp
      intro hx
      exact absurd hx (by decide)

theorem claim_C5_witness :
    customerEntity.fields.filter isPasswordField ≠ [] ∧
    (createServiceModules "customer" "Customer" customerEntity serviceTemplateSample
      serviceBaseTemplateSample).isOk = true ∧
    (∃ m1 m2, createServiceModules "customer" "Customer" customerEntity
        serviceTemplateSample serviceBaseTemplateSample = .ok [m1, m2] ∧
      (m1.file.classes.map fun c => c.superCallArgs) =
        ((interpolate serviceTemplateSample (serviceMapping "customer" "Customer"
            (customerEntity.fields.filter isPasswordField))).classes.map fun c =>
          c.superCallArgs.map fun args => args ++ [PASSWORD_SERVICE_MEMBER_ID]) ∧
      ((m2.file.classes.map fun c => c.superCallArgs) =
        (interpolate serviceBaseTemplateSample (serviceMapping "customer" "Customer"
            (customerEntity.fields.filter isPasswordField))).classes.map fun c =>
          c.superCallArgs) ∧
      TRANSFORM_STRING_FIELD_UPDATE_INPUT_ID ∈ importedNames m2.file ∧
      (TRANSFORM_STRING_FIELD_UPDATE_INPUT_ID ∉ importedNames serviceTemplateSample →
        TRANSFORM_STRING_FIELD_UPDATE_INPUT_ID ∉ importedNames m1.file)) :=
  ⟨by simp [customerEntity, isPasswordField], rfl,
   claim_C5 "customer" "Customer" customerEntity serviceTemplateSample
     serviceBaseTemplateSample (by simp [customerEntity, isPasswordField]) rfl⟩

/-- Claim C6: for an entity with no password fields, both artifacts are
exactly interpolation plus scaffold stripping (plus the concrete artifact's
base-class import): the produced pair contains no dependency injection, no
super-call splice, no async flip and no password-service import, and both
mutation-mapping slots are the bare `args` identifier. -/
theorem claim_C6 (entityName entityType : String) (entity : Entity) (tS tB : File)
    (h : entity.fields.filter isPasswordField = []) :
    createServiceModules entityName entityType entity tS tB =
      .ok [{ path := serviceModulePath entityName,
             file := removeTSInterfaceDeclares (removeTSVariableDeclares
               (removeESLintComments (removeTSIgnoreComments
                 (addImports (removeTSClassDeclares (interpolate tS
                     (serviceMapping entityName entityType [])))
                   [{ names := [createServiceBaseId entityType],
                      path := relativeImportPath (serviceModulePath entityName)
                        (serviceBaseModulePath entityName) }])))) },
           { path := serviceBaseModulePath entityName,
             file := removeTSInterfaceDeclares (removeTSVariableDeclares
               (removeESLintComments (removeTSIgnoreComments
                 (removeTSClassDeclares (interpolate tB
                   (serviceMapping entityName entityType [])))))) }] ∧
    lookupExpr (serviceMapping entityName entityType
      (entity.fields.filter isPasswordField)) "CREATE_ARGS_MAPPING" = some ARGS_ID ∧
    lookupExpr (serviceMapping entityName entityType
      (entity.fields.filter isPasswordField)) "UPDATE_ARGS_MAPPING" = some ARGS_ID := by
  refine ⟨?_, ?_, ?_⟩
  · unfold createServiceModules
    dsimp only
    rw [h, createServiceModule_no_password, createServiceBaseModule_no_password]
    rfl
  · rw [h]
    simp [serviceMapping, lookupExpr, createMutationDataMapping]
  · rw [h]
    simp [serviceMapping, lookupExpr, createMutationDataMapping]

/-- The sample entity of the spec's no-sensitive-field scenario. -/
def tagEntity : Entity :=
  ⟨[⟨"label", false⟩]⟩

theorem claim_C6_witness :
    tagEntity.fields.filter isPasswordField = [] ∧
    (createServiceModules "tag" "Tag" tagEntity serviceTemplateSample
        serviceBaseTemplateSample =
      .ok [{ path := serviceModulePath "tag",
             file := removeTSInterfaceDeclares (removeTSVariableDeclares
               (removeESLintComments (removeTSIgnoreComments
                 (addImports (removeTSClassDeclares (interpolate serviceTemplateSample
                     (serviceMapping "tag" "Tag" [])))
                   [{ names := [createServiceBaseId "Tag"],
                      path := relativeImportPath (serviceModulePath "tag")
                        (serviceBaseModulePath "tag") }])))) },
           { path := serviceBaseModulePath "tag",
             file := removeTSInterfaceDeclares (removeTSVariableDeclares
               (removeESLintComments (removeTSIgnoreComments
                 (removeTSClassDeclares (interpolate serviceBaseTemplateSample
                   (serviceMapping "tag" "Tag" [])))))) }] ∧
    lookupExpr (serviceMapping "tag" "Tag"
      (tagEntity.fields.filter isPasswordField)) "CREATE_ARGS_MAPPING" = some ARGS_ID ∧
    lookupExpr (serviceMapping "tag" "Tag"
      (tagEntity.fields.filter isPasswordField)) "UPDATE_ARGS_MAPPING" = some ARGS_ID) :=
  ⟨by simp [tagEntity, isPasswordField],
   claim_C6 "tag" "Tag" tagEntity serviceTemplateSample serviceBaseTemplateSample
     (by simp [tagEntity, isPasswordField])⟩

/-- A malformed template: no class declaration at all. -/
def emptyTemplate : File :=
  { imports := []
    classes := []
    classDeclares := []
    ignoreComments := 0
    eslintComments := 0
    variableDeclares := []
    interfaceDeclares := [] }

/-- Counterexample to claim C9 as stated: for an entity with zero password
fields, synthesis succeeds even though neither loaded template contains a
class declaration with the conventional service identifier - the class
lookup only happens inside the password-field branch. -/
theorem claim_C9_counterexample :
    findClass (interpolate emptyTemplate (serviceMapping "tag" "Tag"
      (tagEntity.fields.filter isPasswordField))) (createServiceId "Tag") = none ∧
    findClass (interpolate emptyTemplate (serviceMapping "tag" "Tag"
      (tagEntity.fields.filter isPasswordField))) (createServiceBaseId "Tag") = none ∧
    (createServiceModules "tag" "Tag" tagEntity emptyTemplate emptyTemplate).isOk =
      true :=
  ⟨rfl, rfl, rfl⟩

/-- Claim C9 (amended): for an entity with at least one password field, if a
loaded template does not contain a class declaration identified by the
conventional service identifier (after interpolation), that entity's
synthesis fails with `TargetNotFound` instead of producing artifacts. -/
theorem claim_C9 (entityName entityType : String) (entity : Entity) (tS tB : File)
    (hpf : entity.fields.filter isPasswordField ≠ []) :
    (findClass (interpolate tS (serviceMapping entityName entityType
        (entity.fields.filter isPasswordField))) (createServiceId entityType) = none →
      createServiceModules entityName entityType entity tS tB =
        .error "TargetNotFound") ∧
    (findClass (interpolate tB (serviceMapping entityName entityType
        (entity.fields.filter isPasswordField))) (createServiceBaseId entityType) =
          none →
      createServiceModules entityName entityType entity tS tB =
        .error "TargetNotFound") := by
  constructor
  · intro hcS
    unfold createServiceModules
    dsimp only
    rw [createServiceModule_missing_class _ _ _ _ _ _ hpf hcS]
    rfl
  · intro hcB
    unfold createServiceModules
    dsimp only
    cases hfcS : findClass (interpolate tS (serviceMapping entityName entityType
        (entity.fields.filter isPasswordField))) (createServiceId entityType) with
    | none =>
      rw [createServiceModule_missing_class _ _ _ _ _ _ hpf hfcS]
      rfl
    | some c1 =>
      rw [createServiceModule_password _ _ _ _ _ _ hpf c1 hfcS,
        createServiceBaseModule_missing_class _ _ _ _ _ _ hpf hcB]
      rfl

theorem claim_C9_witness :
    customerEntity.fields.filter isPasswordField ≠ [] ∧
    ((findClass (interpolate emptyTemplate (serviceMapping "customer" "Customer"
        (customerEntity.fields.filter isPasswordField))) (createServiceId "Customer") =
          none →
      createServiceModules "customer" "Customer" customerEntity emptyTemplate
        emptyTemplate = .error "TargetNotFound") ∧
    (findClass (interpolate emptyTemplate (serviceMapping "customer" "Customer"
        (customerEntity.fields.filter isPasswordField)))
          (createServiceBaseId "Customer") = none →
      createServiceModules "customer" "Customer" customerEntity emptyTemplate
        emptyTemplate = .error "TargetNotFound")) :=
  ⟨by simp [customerEntity, isPasswordField],
   claim_C9 "customer" "Customer" customerEntity emptyTemplate emptyTemplate
     (by simp [customerEntity, isPasswordField])⟩

/-- Claim C10: when the mutators run (password fields present) and the target
class has no method named `create`, the async-marking loop silently skips the
missing name: synthesis still succeeds (no `MemberNotFound` surfaces), and
the final members are exactly the existing members transformed by the flip
(so only matching methods that do exist are flipped) plus the injected
collaborator. -/
theorem claim_C10 (entityName entityType : String) (entity : Entity) (tS tB : File)
    (hpf : entity.fields.filter isPasswordField ≠ [])
    (c1 c2 : ClassDecl)
    (hc1 : findClass (interpolate tS (serviceMapping entityName entityType
      (entity.fields.filter isPasswordField))) (createServiceId entityType) = some c1)
    (hc2 : findClass (interpolate tB (serviceMapping entityName entityType
      (entity.fields.filter isPasswordField))) (createServiceBaseId entityType) =
        some c2)
    (hnoc1 : ∀ k a body, ClassMember.method k "create" a body ∉ c1.members)
    (hnoc2 : ∀ k a body, ClassMember.method k "create" a body ∉ c2.members) :
    ∃ m1 m2, createServiceModules entityName entityType entity tS tB = .ok [m1, m2] ∧
      (∃ c1', findClass m1.file (createServiceId entityType) = some c1' ∧
        c1'.members = c1.members.map asyncFlipMember ++
          [.injectedDep PASSWORD_SERVICE_MEMBER_ID PASSWORD_SERVICE_ID "protected"]) ∧
      (∃ c2', findClass m2.file (createServiceBaseId entityType) = some c2' ∧
        c2'.members = c2.members.map asyncFlipMember ++
          [.injectedDep PASSWORD_SERVICE_MEMBER_ID PASSWORD_SERVICE_ID "protected"]) := by
  have hempty : (entity.fields.filter isPasswordField).isEmpty = false := by
    simp [List.isEmpty_iff, hpf]
  have hS := createServiceModule_password entityName (createServiceBaseId entityType)
    (serviceMapping entityName entityType (entity.fields.filter isPasswordField))
    (entity.fields.filter isPasswordField) (createServiceId entityType) tS hpf c1 hc1
  have hB := createServiceBaseModule_password entityName
    (serviceMapping entityName entityType (entity.fields.filter isPasswordField))
    (entity.fields.filter isPasswordField) (createServiceId entityType)
    (createServiceBaseId entityType) tB hpf c2 hc2
  have hmods : createServiceModules entityName entityType entity tS tB = .ok
      [{ path := serviceModulePath entityName,
         file := removeTSInterfaceDeclares (removeTSVariableDeclares
           (removeESLintComments (removeTSIgnoreComments
             (addImports
               (updateClass
                 (addIdentifierToConstructorSuperCall
                   (updateClass
                     (addImports (removeTSClassDeclares (interpolate tS
                         (serviceMapping entityName entityType
                           (entity.fields.filter isPasswordField))))
                       [{ names := [createServiceBaseId entityType],
                          path := relativeImportPath (serviceModulePath entityName)
                            (serviceBaseModulePath entityName) }])
                     (createServiceId entityType) fun cl =>
                       addInjectableDependency cl PASSWORD_SERVICE_MEMBER_ID
                         PASSWORD_SERVICE_ID "protected")
                   PASSWORD_SERVICE_MEMBER_ID)
                 (createServiceId entityType) fun cl =>
                   { cl with members := cl.members.map asyncFlipMember })
               [{ names := [PASSWORD_SERVICE_ID],
                  path := relativeImportPath (serviceModulePath entityName)
                    PASSWORD_SERVICE_MODULE_PATH }])))) },
       { path := serviceBaseModulePath entityName,
         file := removeTSInterfaceDeclares (removeTSVariableDeclares
           (removeESLintComments (removeTSIgnoreComments
             (addImports
               (addImports
                 (updateClass
                   (updateClass (removeTSClassDeclares (interpolate tB
                       (serviceMapping entityName entityType
                         (entity.fields.filter isPasswordField))))
                     (createServiceBaseId entityType) fun cl =>
                       addInjectableDependency cl PASSWORD_SERVICE_MEMBER_ID
                         PASSWORD_SERVICE_ID "protected")
                   (createServiceBaseId entityType) fun cl =>
                     { cl with members := cl.members.map asyncFlipMember })
                 [{ names := [PASSWORD_SERVICE_ID],
                    path := relativeImportPath (serviceBaseModulePath entityName)
                      PASSWORD_SERVICE_MODULE_PATH }])
               [{ names := [TRANSFORM_STRING_FIELD_UPDATE_INPUT_ID],
                  path := relativeImportPath (serviceBaseModulePath entityName)
                    PRISMA_UTIL_MODULE_PATH }])))) }] := by
    unfold createServiceModules
    dsimp only
    rw [hS, hB]
    rfl
  refine ⟨_, _, hmods, ?_, ?_⟩
  · obtain ⟨c1', hf, hm⟩ := findClass_createServiceModule _ _ _ _ _ _ _ hS c1 hc1
    rw [hempty] at hm
    exact ⟨c1', hf, by simpa using hm⟩
  · obtain ⟨c2', hf, hm⟩ := findClass_createServiceBaseModule _ _ _ _ _ _ _ hB c2 hc2
    rw [hempty] at hm
    exact ⟨c2', hf, by simpa using hm⟩

/-- A concrete-service template whose class lacks a `create` method. -/
def noCreateServiceTemplate : File :=
  { imports := []
    classes := [{ id := "SERVICE", superClass := some "SERVICE_BASE",
                  superCallArgs := some ["prisma"],
                  members := [.method true "findMany" false [],
                              .method true "update" false []] }]
    classDeclares := []
    ignoreComments := 0
    eslintComments := 0
    variableDeclares := []
    interfaceDeclares := [] }

/-- A base-service template whose class lacks a `create` method. -/
def noCreateBaseTemplate : File :=
  { imports := []
    classes := [{ id := "SERVICE_BASE", superClass := none,
                  superCallArgs := none,
                  members := [.method true "findMany" false [],
                              .method true "update" false []] }]
    classDeclares := []
    ignoreComments := 0
    eslintComments := 0
    variableDeclares := []
    interfaceDeclares := [] }

theorem claim_C10_witness :
    customerEntity.fields.filter isPasswordField ≠ [] ∧
    findClass (interpolate noCreateServiceTemplate (serviceMapping "customer" "Customer"
        (customerEntity.fields.filter isPasswordField))) (createServiceId "Customer") =
      some { id := "CustomerService", superClass := some "CustomerServiceBase",
             superCallArgs := some ["prisma"],
             members := [.method true "findMany" false [],
                         .method true "update" false []] } ∧
    findClass (interpolate noCreateBaseTemplate (serviceMapping "customer" "Customer"
        (customerEntity.fields.filter isPasswordField)))
        (createServiceBaseId "Customer") =
      some { id := "CustomerServiceBase", superClass := none,
             superCallArgs := none,
             members := [.method true "findMany" false [],
                         .method true "update" false []] } ∧
    (∀ k a body, ClassMember.method k "create" a body ∉
      [ClassMember.method true "findMany" false [],
       ClassMember.method true "update" false []]) ∧
    (∃ m1 m2, createServiceModules "customer" "Customer" customerEntity
        noCreateServiceTemplate noCreateBaseTemplate = .ok [m1, m2] ∧
      (∃ c1', findClass m1.file (createServiceId "Customer") = some c1' ∧
        c1'.members =
          [ClassMember.method true "findMany" false [],
           ClassMember.method true "update" false []].map asyncFlipMember ++
          [.injectedDep PASSWORD_SERVICE_MEMBER_ID PASSWORD_SERVICE_ID "protected"]) ∧
      (∃ c2', findClass m2.file (createServiceBaseId "Customer") = some c2' ∧
        c2'.members =
          [ClassMember.method true "findMany" false [],
           ClassMember.method true "update" false []].map asyncFlipMember ++
          [.injectedDep PASSWORD_SERVICE_MEMBER_ID PASSWORD_SERVICE_ID "protected"])) :=
  ⟨by simp [customerEntity, isPasswordField], rfl, rfl,
   by intro k a body; simp,
   claim_C10 "customer" "Customer" customerEntity noCreateServiceTemplate
     noCreateBaseTemplate (by simp [customerEntity, isPasswordField])
     { id := "CustomerService", superClass := some "CustomerServiceBase",
       superCallArgs := some ["prisma"],
       members := [.method true "findMany" false [],
                   .method true "update" false []] }
     { id := "CustomerServiceBase", superClass := none,
       superCallArgs := none,
       members := [.method true "findMany" false [],
                   .method true "update" false []] }
     rfl rfl (by intro k a body; simp) (by intro k a body; simp)⟩

/-- The scaffold-stripping operations named by the ordering claim. -/
def Step.isScaffoldStrip : Step → Bool
  | .removeTSClassDeclaresStep => true
  | .removeTSIgnoreCommentsStep => true
  | .removeESLintCommentsStep => true
  | .removeTSVariableDeclaresStep => true
  | .removeTSInterfaceDeclaresStep => true
  | _ => false

/-- The structural mutators named by the ordering claim (dependency
injection, super-call splice, async flips, import additions). -/
def Step.isStructuralMutator : Step → Bool
  | .addImportsStep _ _ _ => true
  | .addInjectableDependencyStep => true
  | .addSuperCallIdentifierStep => true
  | .markAsyncMethodsStep => true
  | _ => false

/-- A coarse classification of steps: `1` for the scaffold class-declare
removal, `2` for every other scaffold strip, `3` for a structural mutator,
`0` otherwise. -/
def stepTag : Step → Nat
  | .removeTSClassDeclaresStep => 1
  | .removeTSIgnoreCommentsStep => 2
  | .removeESLintCommentsStep => 2
  | .removeTSVariableDeclaresStep => 2
  | .removeTSInterfaceDeclaresStep => 2
  | .addImportsStep _ _ _ => 3
  | .addInjectableDependencyStep => 3
  | .addSuperCallIdentifierStep => 3
  | .markAsyncMethodsStep => 3
  | .interpolateStep => 0

/-- A value found at a position but absent from the prefix forces the
position past the prefix. -/
theorem index_lower_bound (T : List Nat) (k v i : Nat) (h : T[i]? = some v)
    (hv : v ∉ T.take k) : k ≤ i := by
  by_contra hik
  push_neg at hik
  have : (T.take k)[i]? = some v := by
    rw [List.getElem?_take]
    simp [hik, h]
  exact hv (List.getElem?_mem this)

/-- A value found at a position but absent from the suffix keeps the
position inside the prefix. -/
theorem index_upper_bound (T : List Nat) (k v j : Nat) (h : T[j]? = some v)
    (hv : v ∉ T.drop k) : j < k := by
  by_contra hjk
  push_neg at hjk
  have : (T.drop k)[j - k]? = some v := by
    rw [List.getElem?_drop]
    rwa [Nat.add_sub_cancel' hjk]
  exact hv (List.getElem?_mem this)

/-- A scaffold strip other than the class-declare removal is tagged `2`. -/
theorem stepTag_of_strip (s : Step) (h1 : s.isScaffoldStrip = true)
    (h2 : s ≠ .removeTSClassDeclaresStep) : stepTag s = 2 := by
  cases s <;> simp_all [Step.isScaffoldStrip, stepTag]

/-- A structural mutator is tagged `3`. -/
theorem stepTag_of_mutator (s : Step) (h : s.isStructuralMutator = true) :
    stepTag s = 3 := by
  cases s <;> simp_all [Step.isStructuralMutator, stepTag]

/-- Counterexample to claim C8 as stated: in the concrete pipeline the
scaffold class-declare removal (a scaffold-stripping operation) runs at
position 1, before the base-class import addition and the password-field
mutators, so not every scaffold strip runs after all structural mutators. -/
theorem claim_C8_counterexample :
    ¬ ∀ i j : Fin (serviceSteps "customer" "CustomerServiceBase" true).length,
        ((serviceSteps "customer" "CustomerServiceBase" true).get i).isScaffoldStrip =
            true →
        ((serviceSteps "customer" "CustomerServiceBase" true).get
            j).isStructuralMutator = true →
        (j : Nat) < (i : Nat) := by
  intro hall
  have h9 : (9 : Nat) < (serviceSteps "customer" "CustomerServiceBase" true).length := by
    simp [serviceSteps]
  have h2 : (2 : Nat) < (serviceSteps "customer" "CustomerServiceBase" true).length := by
    simp [serviceSteps]
  have hlt := hall ⟨1, by simp [serviceSteps]⟩ ⟨2, h2⟩
    (by simp [serviceSteps, Step.isScaffoldStrip])
    (by simp [serviceSteps, Step.isStructuralMutator])
  simp at hlt

/-- Claim C8 (amended): in each artifact's pipeline every scaffold-stripping
operation except the class-declare removal runs strictly after all
structural mutators; the class-declare removal is the exception - it runs at
position 1, immediately after interpolation and before every mutator. -/
theorem claim_C8 (entityName serviceBaseIdName : String) (hasPw : Bool) :
    (serviceSteps entityName serviceBaseIdName hasPw)[0]? = some .interpolateStep ∧
    (serviceSteps entityName serviceBaseIdName hasPw)[1]? =
      some .removeTSClassDeclaresStep ∧
    (serviceBaseSteps entityName hasPw)[0]? = some .interpolateStep ∧
    (serviceBaseSteps entityName hasPw)[1]? = some .removeTSClassDeclaresStep ∧
    (∀ (i j : Nat) (si sj : Step),
      (serviceSteps entityName serviceBaseIdName hasPw)[i]? = some si →
      (serviceSteps entityName serviceBaseIdName hasPw)[j]? = some sj →
      si.isScaffoldStrip = true → si ≠ .removeTSClassDeclaresStep →
      sj.isStructuralMutator = true → j < i) ∧
    (∀ (i j : Nat) (si sj : Step),
      (serviceBaseSteps entityName hasPw)[i]? = some si →
      (serviceBaseSteps entityName hasPw)[j]? = some sj →
      si.isScaffoldStrip = true → si ≠ .removeTSClassDeclaresStep →
      sj.isStructuralMutator = true → j < i) := by
  have hmapS : ∀ (l : List Step) (i : Nat) (s : Step) (v : Nat), l[i]? = some s →
      stepTag s = v → (l.map stepTag)[i]? = some v := by
    intro l i s v h hv
    rw [List.getElem?_map, h]
    simp [hv]
  cases hasPw with
  | true =>
    have hTS : (serviceSteps entityName serviceBaseIdName true).map stepTag =
        [0, 1, 3, 3, 3, 3, 3, 2, 2, 2, 2] := by
      simp [serviceSteps, stepTag]
    have hTB : (serviceBaseSteps entityName true).map stepTag =
        [0, 1, 3, 3, 3, 3, 2, 2, 2, 2] := by
      simp [serviceBaseSteps, stepTag]
    refine ⟨rfl, rfl, rfl, rfl, ?_, ?_⟩
    · intro i j si sj hi hj h1 h2 h3
      have hvi := hmapS _ i si 2 hi (stepTag_of_strip si h1 h2)
      have hvj := hmapS _ j sj 3 hj (stepTag_of_mutator sj h3)
      rw [hTS] at hvi hvj
      have hki := index_lower_bound _ 7 2 i hvi (by decide)
      have hkj := index_upper_bound _ 7 3 j hvj (by decide)
      omega
    · intro i j si sj hi hj h1 h2 h3
      have hvi := hmapS _ i si 2 hi (stepTag_of_strip si h1 h2)
      have hvj := hmapS _ j sj 3 hj (stepTag_of_mutator sj h3)
      rw [hTB] at hvi hvj
      have hki := index_lower_bound _ 6 2 i hvi (by decide)
      have hkj := index_upper_bound _ 6 3 j hvj (by decide)
      omega
  | false =>
    have hTS : (serviceSteps entityName serviceBaseIdName false).map stepTag =
        [0, 1, 3, 2, 2, 2, 2] := by
      simp [serviceSteps, stepTag]
    have hTB : (serviceBaseSteps entityName false).map stepTag =
        [0, 1, 2, 2, 2, 2] := by
      simp [serviceBaseSteps, stepTag]
    refine ⟨rfl, rfl, rfl, rfl, ?_, ?_⟩
    · intro i j si sj hi hj h1 h2 h3
      have hvi := hmapS _ i si 2 hi (stepTag_of_strip si h1 h2)
      have hvj := hmapS _ j sj 3 hj (stepTag_of_mutator sj h3)
      rw [hTS] at hvi hvj
      have hki := index_lower_bound _ 3 2 i hvi (by decide)
      have hkj := index_upper_bound _ 3 3 j hvj (by decide)
      omega
    · intro i j si sj hi hj h1 h2 h3
      have hvi := hmapS _ i si 2 hi (stepTag_of_strip si h1 h2)
      have hvj := hmapS _ j sj 3 hj (stepTag_of_mutator sj h3)
      rw [hTB] at hvi hvj
      have hki := index_lower_bound _ 2 2 i hvi (by decide)
      have hkj := index_upper_bound _ 2 3 j hvj (by decide)
      omega

/-- Splitting never yields the empty segment list. -/
theorem splitSlash_ne_nil (l : List Char) : splitSlash l ≠ [] := by
  induction l with
  | nil => simp [splitSlash]
  | cons c cs ih =>
    rw [splitSlash]
    by_cases h : c = '/'
    · simp [h]
    · simp only [h, if_false]
      cases hcs : splitSlash cs <;> simp

/-- Splitting distributes over a separator occurrence. -/
theorem splitSlash_append (xs ys : List Char) :
    splitSlash (xs ++ '/' :: ys) = splitSlash xs ++ splitSlash ys := by
  induction xs with
  | nil =>
    rw [List.nil_append, splitSlash]
    simp [splitSlash]
  | cons c cs ih =>
    rw [List.cons_append, splitSlash, splitSlash]
    by_cases h : c = '/'
    · simp [h, ih]
    · simp only [h, if_false]
      rw [ih]
      cases hcs : splitSlash cs with
      | nil => exact absurd hcs (splitSlash_ne_nil cs)
      | cons s ss => simp

/-- A segment without the separator splits to itself. -/
theorem splitSlash_no_slash (l : List Char) (h : '/' ∉ l) : splitSlash l = [l] := by
  induction l with
  | nil => rfl
  | cons c cs ih =>
    rw [splitSlash]
    have hc : ¬ c = '/' := fun hc => h (by simp [hc])
    simp only [hc, if_false]
    rw [ih fun hcs => h (by simp [hcs])]

/-- Shared leading segments cancel. -/
theorem dropSharedRoot_cancel (l a b : List (List Char)) :
    dropSharedRoot (l ++ a) (l ++ b) = dropSharedRoot a b := by
  induction l with
  | nil => rfl
  | cons x l ih =>
    rw [List.cons_append, List.cons_append, dropSharedRoot]
    simp [ih]

/-- Stripping the conventional base-artifact suffix. -/
theorem stripTsExt_service_base (d : List Char) :
    stripTsExt (d ++ ".service.base.ts".data) = d ++ ".service.base".data := by
  unfold stripTsExt
  rw [List.reverse_append]
  have h1 : (".service.base.ts".data).reverse =
      's' :: 't' :: '.' :: (".service.base".data).reverse := by decide
  rw [h1]
  simp only [List.cons_append, List.take, List.drop, reduceIte]
  simp [List.reverse_append, List.reverse_reverse]

/-- Dropping a list's own segments from an extension of itself leaves the
extension. -/
theorem dropSharedRoot_self_append (l b : List (List Char)) :
    dropSharedRoot l (l ++ b) = ([], b) := by
  have h := dropSharedRoot_cancel l [] b
  rw [List.append_nil] at h
  rw [h]
  cases b <;> rfl

/-- The conventional-depth relative import path, for any root directory:
from `X/e/e.service.ts` to `X/e/base/e.service.base.ts` the computed module
path is `./base/e.service.base`. -/
theorem relativeImportPath_conventional (X e : String) (he : '/' ∉ e.data) :
    relativeImportPath (X ++ "/" ++ e ++ "/" ++ e ++ ".service.ts")
      (X ++ "/" ++ e ++ "/base/" ++ e ++ ".service.base.ts") =
    "./base/" ++ e ++ ".service.base" := by
  have hslash : "/".data = ['/'] := rfl
  have hbase : "/base/".data = '/' :: ("base".data ++ ['/']) := rfl
  have hfrom : (X ++ "/" ++ e ++ "/" ++ e ++ ".service.ts").data =
      X.data ++ '/' :: (e.data ++ '/' :: (e.data ++ ".service.ts".data)) := by
    simp [String.data_append, hslash, List.append_assoc]
  have hto : (X ++ "/" ++ e ++ "/base/" ++ e ++ ".service.base.ts").data =
      X.data ++ '/' :: (e.data ++ '/' ::
        ("base".data ++ '/' :: (e.data ++ ".service.base.ts".data))) := by
    simp [String.data_append, hbase, List.append_assoc]
  have hs1 : '/' ∉ (e.data ++ ".service.ts".data) := by
    intro hmem
    rcases List.mem_append.1 hmem with hx | hx
    · exact he hx
    · revert hx
      decide
  have hs2 : '/' ∉ (e.data ++ ".service.base.ts".data) := by
    intro hmem
    rcases List.mem_append.1 hmem with hx | hx
    · exact he hx
    · revert hx
      decide
  unfold relativeImportPath
  rw [hfrom, hto]
  simp only [splitSlash_append]
  rw [splitSlash_no_slash _ he, splitSlash_no_slash _ hs1, splitSlash_no_slash _ hs2,
    splitSlash_no_slash _ (show ('/' : Char) ∉ "base".data by decide)]
  have hdrop : (splitSlash X.data ++ ([e.data] ++ [e.data ++ ".service.ts".data])).dropLast
      = splitSlash X.data ++ [e.data] := by
    rw [← List.append_assoc]
    exact List.dropLast_concat
  rw [hdrop]
  have hshare : dropSharedRoot (splitSlash X.data ++ [e.data])
      (splitSlash X.data ++ ([e.data] ++ (["base".data] ++
        [e.data ++ ".service.base.ts".data]))) =
      ([], ["base".data, e.data ++ ".service.base.ts".data]) := by
    rw [← List.append_assoc, dropSharedRoot_self_append]
    rfl
  rw [hshare]
  simp only [List.isEmpty_nil, List.map_nil, List.nil_append, if_true]
  rw [show stripExtLast ["base".data, e.data ++ ".service.base.ts".data] =
      ["base".data, stripTsExt (e.data ++ ".service.base.ts".data)] from rfl]
  rw [stripTsExt_service_base]
  apply String.ext
  show '.' :: '/' :: joinSlash ["base".data, e.data ++ ".service.base".data] =
    ("./base/" ++ e ++ ".service.base").data
  rw [show joinSlash ["base".data, e.data ++ ".service.base".data] =
      "base".data ++ '/' :: (e.data ++ ".service.base".data) from rfl]
  simp [String.data_append, List.append_assoc]

/-- The concrete artifact's destination path is fixed by the entity name. -/
theorem createServiceModule_path (entityName serviceBaseId : String)
    (m : List (String × Expression)) (passwordFields : List EntityField)
    (serviceId : String) (template : File) (m1 : OutputModule)
    (hS : createServiceModule entityName m passwordFields serviceId serviceBaseId
      template = .ok m1) : m1.path = serviceModulePath entityName := by
  revert hS
  unfold createServiceModule
  cases hfold : (serviceSteps entityName serviceBaseId (!passwordFields.isEmpty)).foldlM
      (fun f s => applyStep m serviceId s f) template with
  | error e =>
    intro hS
    simp [Bind.bind, Except.bind] at hS
  | ok f =>
    intro hS
    simp only [Bind.bind, Except.bind, pure, Except.pure, Except.ok.injEq] at hS
    rw [← hS]

/-- The base artifact's destination path is fixed by the entity name. -/
theorem createServiceBaseModule_path (entityName : String)
    (m : List (String × Expression)) (passwordFields : List EntityField)
    (serviceId serviceBaseId : String) (template : File) (m2 : OutputModule)
    (hB : createServiceBaseModule entityName m passwordFields serviceId serviceBaseId
      template = .ok m2) : m2.path = serviceBaseModulePath entityName := by
  revert hB
  unfold createServiceBaseModule
  cases hfold : (serviceBaseSteps entityName (!passwordFields.isEmpty)).foldlM
      (fun f s => applyStep m serviceBaseId s f) template with
  | error e =>
    intro hB
    simp [Bind.bind, Except.bind] at hB
  | ok f =>
    intro hB
    simp only [Bind.bind, Except.bind, pure, Except.pure, Except.ok.injEq] at hB
    rw [← hB]

/-- Claim C7: the two artifacts land at
`SRC_DIRECTORY/e/e.service.ts` and `SRC_DIRECTORY/e/base/e.service.base.ts`;
the concrete pipeline adds its base-class import with the path computed from
the concrete artifact's own destination to the base artifact's destination,
and for any root directory that computed path is `./base/e.service.base`. -/
theorem claim_C7 (entityName entityType : String) (entity : Entity) (tS tB : File)
    (hok : (createServiceModules entityName entityType entity tS tB).isOk = true)
    (he : '/' ∉ entityName.data) :
    (∃ m1 m2, createServiceModules entityName entityType entity tS tB = .ok [m1, m2] ∧
      m1.path = SRC_DIRECTORY ++ "/" ++ entityName ++ "/" ++ entityName ++
        ".service.ts" ∧
      m2.path = SRC_DIRECTORY ++ "/" ++ entityName ++ "/base/" ++ entityName ++
        ".service.base.ts") ∧
    (∀ hasPw, Step.addImportsStep [createServiceBaseId entityType]
        (serviceModulePath entityName) (serviceBaseModulePath entityName) ∈
      serviceSteps entityName (createServiceBaseId entityType) hasPw) ∧
    (∀ X : String, relativeImportPath
        (X ++ "/" ++ entityName ++ "/" ++ entityName ++ ".service.ts")
        (X ++ "/" ++ entityName ++ "/base/" ++ entityName ++ ".service.base.ts") =
      "./base/" ++ entityName ++ ".service.base") ∧
    relativeImportPath (serviceModulePath entityName)
        (serviceBaseModulePath entityName) =
      "./base/" ++ entityName ++ ".service.base" := by
  obtain ⟨m1, m2, hmods, hS, hB⟩ :=
    createServiceModules_isOk entityName entityType entity tS tB hok
  refine ⟨⟨m1, m2, hmods, ?_, ?_⟩, ?_, ?_, ?_⟩
  · exact createServiceModule_path _ _ _ _ _ _ _ hS
  · exact createServiceBaseModule_path _ _ _ _ _ _ _ hB
  · intro hasPw
    cases hasPw <;> simp [serviceSteps]
  · intro X
    exact relativeImportPath_conventional X entityName he
  · exact relativeImportPath_conventional SRC_DIRECTORY entityName he

theorem claim_C7_witness :
    (createServiceModules "customer" "Customer" customerEntity serviceTemplateSample
      serviceBaseTemplateSample).isOk = true ∧
    '/' ∉ "customer".data ∧
    ((∃ m1 m2, createServiceModules "customer" "Customer" customerEntity
        serviceTemplateSample serviceBaseTemplateSample = .ok [m1, m2] ∧
      m1.path = SRC_DIRECTORY ++ "/" ++ "customer" ++ "/" ++ "customer" ++
        ".service.ts" ∧
      m2.path = SRC_DIRECTORY ++ "/" ++ "customer" ++ "/base/" ++ "customer" ++
        ".service.base.ts") ∧
    (∀ hasPw, Step.addImportsStep [createServiceBaseId "Customer"]
        (serviceModulePath "customer") (serviceBaseModulePath "customer") ∈
      serviceSteps "customer" (createServiceBaseId "Customer") hasPw) ∧
    (∀ X : String, relativeImportPath
        (X ++ "/" ++ "customer" ++ "/" ++ "customer" ++ ".service.ts")
        (X ++ "/" ++ "customer" ++ "/base/" ++ "customer" ++ ".service.base.ts") =
      "./base/" ++ "customer" ++ ".service.base") ∧
    relativeImportPath (serviceModulePath "customer")
        (serviceBaseModulePath "customer") =
      "./base/" ++ "customer" ++ ".service.base") :=
  ⟨rfl, by decide,
   claim_C7 "customer" "Customer" customerEntity serviceTemplateSample
     serviceBaseTemplateSample rfl (by decide)⟩
